import Mathlib

/-
  Verification of the MCAN (CAN/CAN-FD controller) driver of the arm-bsp
  repository (src/src/Mcan/Mcan.c with its header Mcan.h and the
  Utils/Bits.h, Utils/Utils.h, Utils/ErrorCode.h helpers).

  The driver is embedded shallowly: registers are 32-bit values, register
  reads are answered by a hardware oracle (status registers are owned by
  the hardware, not by software), and every register or message-RAM access
  is recorded in an event trace so that claims of the form "register X is
  not written" can be stated exactly.  Machine integers are Nat with
  explicit masking where the C code truncates.
-/

namespace ArmBsp

set_option maxRecDepth 100000
set_option maxHeartbeats 2000000

/-- Utils/Bits.h shiftValueLeft: shift left then mask. -/
def shiftValueLeft (value offset mask : Nat) : Nat :=
  (value <<< offset) &&& mask

/-- Utils/Bits.h shiftBitLeft: place a boolean at a bit offset. -/
def shiftBitLeft (value : Bool) (offset : Nat) : Nat :=
  (if value then 1 else 0) <<< offset

/-- Utils/Bits.h getValueAtOffset: mask then shift right. -/
def getValueAtOffset (value offset mask : Nat) : Nat :=
  (value &&& mask) >>> offset

/-- Utils/Bits.h isFieldSet: any masked bit nonzero. -/
def isFieldSet (value mask : Nat) : Bool :=
  value &&& mask != 0

/-- Utils/Bits.h isBitSet: single bit at offset set. -/
def isBitSet (value offset : Nat) : Bool :=
  isFieldSet value (1 <<< offset)

/-- Mcan.h Mcan_ErrorCode: error codes returned by the driver. -/
inductive Mcan_ErrorCode where
  | InvalidRxFifoId
  | RxFifoEmpty
  | TxFifoFull
  | TxEventFifoEmpty
  | InitializationStartTimeout
  | ClockStopRequestTimeout
  | IndexOutOfRange
  | ElementSizeInvalid
  | ModeInvalid
deriving DecidableEq, Repr

/-- Utils/ErrorCode.h returnError: record the error code and return false.
    The C out-pointer is modelled as the second component of the result. -/
def returnError (e : Mcan_ErrorCode) : Bool × Option Mcan_ErrorCode :=
  (false, some e)

/-- Mcan.h Mcan_ElementSize: the 8 legal CAN-FD payload sizes plus Invalid. -/
inductive Mcan_ElementSize where
  | size8
  | size12
  | size16
  | size20
  | size24
  | size32
  | size48
  | size64
  | invalid
deriving DecidableEq, Repr

/-- Numeric value of the C enum Mcan_ElementSize (0..8). -/
def Mcan_ElementSize.toNat : Mcan_ElementSize → Nat
  | .size8 => 0
  | .size12 => 1
  | .size16 => 2
  | .size20 => 3
  | .size24 => 4
  | .size32 => 5
  | .size48 => 6
  | .size64 => 7
  | .invalid => 8

/-- Mcan.h Mcan_DataLengthRaw_8 (raw byte length 8). -/
def Mcan_DataLengthRaw_8 : Nat := 8

/-- Mcan.h Mcan_DataLengthRaw_Invalid. -/
def Mcan_DataLengthRaw_Invalid : Nat := 0xf7

/-- Mcan.h Mcan_DataLengthCode_Invalid. -/
def Mcan_DataLengthCode_Invalid : Nat := 0xf7

/-- Mcan.c decodeElementSizeInBytes: element size enum to raw byte count. -/
def decodeElementSizeInBytes : Mcan_ElementSize → Nat
  | .size8 => 8
  | .size12 => 12
  | .size16 => 16
  | .size20 => 20
  | .size24 => 24
  | .size32 => 32
  | .size48 => 48
  | .size64 => 64
  | .invalid => Mcan_DataLengthRaw_Invalid

/-- Modelled from the spec: McanRegisters.h is absent from the sources; the
    constant MCAN_TXELEMENT_DATA_WORD is the word offset of the payload in
    a Tx element (two header words in the standard M_CAN element layout the
    spec glossary describes: metadata followed by payload). -/
def MCAN_TXELEMENT_DATA_WORD : Nat := 2

/-- Modelled from the spec: McanRegisters.h is absent from the sources; the
    constant MCAN_RXELEMENT_DATA_WORD is the word offset of the payload in
    an Rx element (two header words before the data area). -/
def MCAN_RXELEMENT_DATA_WORD : Nat := 2

/-- Modelled from the spec: McanRegisters.h is absent from the sources;
    MCAN_TXELEMENT_SIZE_INVALID is the byte count produced by decoding the
    Invalid element size (0xf7 + 8 truncated to uint8). -/
def MCAN_TXELEMENT_SIZE_INVALID : Nat := 0xff

/-- Modelled from the spec: McanRegisters.h is absent from the sources;
    MCAN_DLC_INVALID mirrors Mcan_DataLengthCode_Invalid. -/
def MCAN_DLC_INVALID : Nat := 0xf7

/-- Mcan.c decodeTxElementSizeInBytes: raw size plus the Tx header bytes,
    truncated to uint8 as in the C cast. -/
def decodeTxElementSizeInBytes (size : Mcan_ElementSize) : Nat :=
  (decodeElementSizeInBytes size + MCAN_TXELEMENT_DATA_WORD * 4) % 256

/-- Mcan.c decodeRxElementSizeInBytes: raw size plus the Rx header bytes,
    truncated to uint8 as in the C cast. -/
def decodeRxElementSizeInBytes (size : Mcan_ElementSize) : Nat :=
  (decodeElementSizeInBytes size + MCAN_RXELEMENT_DATA_WORD * 4) % 256

/-- Mcan.c encodeElementSize: byte count back to the element size enum. -/
def encodeElementSize (size : Nat) : Mcan_ElementSize :=
  match size with
  | 8 => .size8
  | 12 => .size12
  | 16 => .size16
  | 20 => .size20
  | 24 => .size24
  | 32 => .size32
  | 48 => .size48
  | 64 => .size64
  | _ => .invalid

/-- Mcan.c encodeTxElementSizeInBytes: subtract the Tx header bytes with
    uint8 wraparound, then encode. -/
def encodeTxElementSizeInBytes (size : Nat) : Mcan_ElementSize :=
  encodeElementSize ((size + 256 - MCAN_TXELEMENT_DATA_WORD * 4) % 256)

/-- Mcan.c encodeRxElementSizeInBytes: subtract the Rx header bytes with
    uint8 wraparound, then encode. -/
def encodeRxElementSizeInBytes (size : Nat) : Mcan_ElementSize :=
  encodeElementSize ((size + 256 - MCAN_RXELEMENT_DATA_WORD * 4) % 256)

/-- Mcan.c encodeDataLengthCode: raw byte length to 4-bit DLC code; lengths
    up to 8 are their own code, the CAN-FD lengths map to codes 9..15, and
    anything else maps to the Invalid code. -/
def encodeDataLengthCode (size : Nat) : Nat :=
  if size % 256 ≤ Mcan_DataLengthRaw_8 then size
  else
    match size with
    | 12 => 9
    | 16 => 10
    | 20 => 11
    | 24 => 12
    | 32 => 13
    | 48 => 14
    | 64 => 15
    | _ => Mcan_DataLengthCode_Invalid

/-- Mcan.c decodeDataLengthCode: DLC code to raw byte length; codes up to 8
    decode to themselves, larger codes clamp to 8 for non-FD frames and
    otherwise map to the CAN-FD lengths (default branch yields 64). -/
def decodeDataLengthCode (dlc : Nat) (isCanFdFrame : Bool) : Nat :=
  if dlc % 256 ≤ Mcan_DataLengthRaw_8 then dlc
  else if !isCanFdFrame then Mcan_DataLengthRaw_8
  else
    match dlc with
    | 9 => 12
    | 10 => 16
    | 11 => 20
    | 12 => 24
    | 13 => 32
    | 14 => 48
    | _ => 64

/-- The list of the 8 legal element-size selectors. -/
def legalElementSizes : List Mcan_ElementSize :=
  [.size8, .size12, .size16, .size20, .size24, .size32, .size48, .size64]

/-- Names of the 32-bit MCAN device registers touched by the embedded
    operations, plus the chip-configuration DMA base register. -/
inductive RegName where
  | cccr
  | test
  | nbtp
  | dbtp
  | tdcr
  | tscc
  | tscv
  | tocc
  | gfc
  | sidfc
  | xidfc
  | xidam
  | rxf0c
  | rxf0s
  | rxf0a
  | rxf1c
  | rxf1s
  | rxf1a
  | rxesc
  | rxbc
  | txbc
  | txfqs
  | txesc
  | txbar
  | txbtie
  | txbcie
  | txefc
  | ir
  | ie
  | ils
  | ile
  | rwd
  | canDma
deriving DecidableEq, Repr

/-- One observable hardware access: a register read or write, or a
    message-RAM byte read or write. -/
inductive Ev where
  | readReg (r : RegName) (v : Nat)
  | writeReg (r : RegName) (v : Nat)
  | readRam (addr v : Nat)
  | writeRam (addr v : Nat)
deriving DecidableEq, Repr

/-- Mcan.h Mcan_Tx: the recorded Tx buffer/queue layout (addresses are byte
    addresses in message RAM; none models a NULL pointer). -/
structure Mcan_Tx where
  bufferAddress : Option Nat
  bufferSize : Nat
  queueAddress : Option Nat
  queueSize : Nat
  elementSize : Nat
deriving DecidableEq, Repr

/-- Mcan.h Mcan_RxFifo: the recorded Rx FIFO layout. -/
structure Mcan_RxFifo where
  address : Option Nat
  size : Nat
  elementSize : Nat
deriving DecidableEq, Repr

/-- Mcan.h Mcan: the software-maintained fields of the device descriptor
    (the register pointers are implicit in the state). -/
structure Mcan where
  msgRamBaseAddress : Nat
  tx : Mcan_Tx
  rxBufferAddress : Option Nat
  rxBufferElementSize : Nat
  rxFifo0 : Mcan_RxFifo
  rxFifo1 : Mcan_RxFifo
  txEventFifoAddress : Option Nat
  txEventFifoSize : Nat
  rxStdFilterAddress : Option Nat
  rxStdFilterSize : Nat
  rxExtFilterAddress : Option Nat
  rxExtFilterSize : Nat
deriving DecidableEq, Repr

/-- Mcan.c Mcan_init: the descriptor is zeroed (all pointers NULL). -/
def Mcan_init : Mcan :=
  { msgRamBaseAddress := 0
    tx := { bufferAddress := none, bufferSize := 0, queueAddress := none,
            queueSize := 0, elementSize := 0 }
    rxBufferAddress := none
    rxBufferElementSize := 0
    rxFifo0 := { address := none, size := 0, elementSize := 0 }
    rxFifo1 := { address := none, size := 0, elementSize := 0 }
    txEventFifoAddress := none
    txEventFifoSize := 0
    rxStdFilterAddress := none
    rxStdFilterSize := 0
    rxExtFilterAddress := none
    rxExtFilterSize := 0 }

/-- The device state: the software descriptor, the byte-addressed message
    RAM, a hardware oracle answering the n-th register read, the read
    counter and the access trace. -/
structure HwState where
  mcan : Mcan
  ram : Nat → Nat
  oracle : Nat → RegName → Nat
  readCnt : Nat
  trace : List Ev

/-- Outcome of running an operation: a result with the final state, or an
    assertion failure (the C assert macro) with the state at that point. -/
inductive Outcome (α : Type) where
  | ok (a : α) (s : HwState)
  | assertFail (s : HwState)

/-- The computation type: state transformer with assertion aborts. -/
def M (α : Type) : Type := HwState → Outcome α

instance : Monad M where
  pure a := fun s => .ok a s
  bind m f := fun s =>
    match m s with
    | .ok a s1 => f a s1
    | .assertFail s1 => .assertFail s1

/-- Read a register: the value is supplied by the hardware oracle,
    truncated to 32 bits, and the read is recorded in the trace. -/
def readReg (r : RegName) : M Nat := fun s =>
  let v := s.oracle s.readCnt r &&& 0xffffffff
  .ok v { s with readCnt := s.readCnt + 1, trace := s.trace ++ [Ev.readReg r v] }

/-- Write a register: recorded in the trace, truncated to 32 bits. -/
def writeReg (r : RegName) (v : Nat) : M Unit := fun s =>
  .ok () { s with trace := s.trace ++ [Ev.writeReg r (v &&& 0xffffffff)] }

/-- Read one message-RAM byte. -/
def readRamByte (a : Nat) : M Nat := fun s =>
  let v := s.ram a &&& 0xff
  .ok v { s with trace := s.trace ++ [Ev.readRam a v] }

/-- Write one message-RAM byte. -/
def writeRamByte (a v : Nat) : M Unit := fun s =>
  .ok () { s with
            ram := fun x => if x = a then v &&& 0xff else s.ram x,
            trace := s.trace ++ [Ev.writeRam a (v &&& 0xff)] }

/-- Read a 32-bit little-endian word from message RAM. -/
def readRamWord (a : Nat) : M Nat := do
  let b0 ← readRamByte a
  let b1 ← readRamByte (a + 1)
  let b2 ← readRamByte (a + 2)
  let b3 ← readRamByte (a + 3)
  pure (b0 ||| (b1 <<< 8) ||| (b2 <<< 16) ||| (b3 <<< 24))

/-- Write a 32-bit little-endian word to message RAM. -/
def writeRamWord (a v : Nat) : M Unit := do
  writeRamByte a (v &&& 0xff)
  writeRamByte (a + 1) ((v >>> 8) &&& 0xff)
  writeRamByte (a + 2) ((v >>> 16) &&& 0xff)
  writeRamByte (a + 3) ((v >>> 24) &&& 0xff)

/-- Read the software device descriptor. -/
def getMcan : M Mcan := fun s => .ok s.mcan s

/-- Update the software device descriptor. -/
def modifyMcan (f : Mcan → Mcan) : M Unit := fun s =>
  .ok () { s with mcan := f s.mcan }

/-- The C assert macro: abort the run when the condition fails. -/
def cassert (b : Bool) : M Unit := fun s =>
  if b then .ok () s else .assertFail s

/-- Utils/Bits.h setValueAtOffset on a register (read-modify-write). -/
def setValueAtOffset (r : RegName) (value offset mask : Nat) : M Unit := do
  let regVal ← readReg r
  writeReg r ((regVal &&& (0xffffffff ^^^ mask)) ||| shiftValueLeft value offset mask)

/-- Utils/Bits.h changeBitAtOffset on a register (read-modify-write). -/
def changeBitAtOffset (r : RegName) (offset : Nat) (value : Bool) : M Unit := do
  let current ← readReg r
  if value then
    writeReg r (current ||| (1 <<< offset))
  else
    writeReg r (current &&& (0xffffffff ^^^ (1 <<< offset)))

/-- A compound assignment reg |= x (read-modify-write). -/
def orReg (r : RegName) (x : Nat) : M Unit := do
  let v ← readReg r
  writeReg r (v ||| x)

/-- A compound assignment reg &= ~mask (read-modify-write). -/
def andNotReg (r : RegName) (mask : Nat) : M Unit := do
  let v ← readReg r
  writeReg r (v &&& (0xffffffff ^^^ mask))

/-- A compound assignment word |= x on message RAM (read-modify-write). -/
def orRamWord (a x : Nat) : M Unit := do
  let v ← readRamWord a
  writeRamWord a (v ||| x)

/-- The C memset(base, 0, n) on message RAM. -/
def memsetRam : Nat → Nat → M Unit
  | _, 0 => pure ()
  | a, Nat.succ n => do
      writeRamByte a 0
      memsetRam (a + 1) n

/-- The C memcpy(base, data, n) from a byte list into message RAM. -/
def memcpyRamFromList : Nat → List Nat → Nat → M Unit
  | _, _, 0 => pure ()
  | a, data, Nat.succ n => do
      writeRamByte a (data.headD 0)
      memcpyRamFromList (a + 1) data.tail n

/-- Read n bytes out of message RAM into a list. -/
def readRamBytes : Nat → Nat → M (List Nat)
  | _, 0 => pure []
  | a, Nat.succ n => do
      let b ← readRamByte a
      let rest ← readRamBytes (a + 1) n
      pure (b :: rest)

/-- Utils/Utils.h waitForRegisterWithTimeout: poll a register against a mask
    for at most the given number of iterations. -/
def waitForRegisterWithTimeout (r : RegName) (mask : Nat) : Nat → M Bool
  | 0 => pure false
  | Nat.succ n => do
      let v ← readReg r
      if v &&& mask ≠ 0 then
        pure true
      else
        waitForRegisterWithTimeout r mask n

/-- Number of reads of a given register in a trace. -/
def readCount (r : RegName) (t : List Ev) : Nat :=
  t.countP fun e =>
    match e with
    | .readReg q _ => q = r
    | _ => false

/-- Number of writes of a given register in a trace. -/
def writeCount (r : RegName) (t : List Ev) : Nat :=
  t.countP fun e =>
    match e with
    | .writeReg q _ => q = r
    | _ => false

/-- Number of message-RAM writes in a trace. -/
def ramWriteCount (t : List Ev) : Nat :=
  t.countP fun e =>
    match e with
    | .writeRam _ _ => true
    | _ => false

/-
  Register bit-field constants.  McanRegisters.h is absent from the
  sources, so every MCAN_..._OFFSET / MCAN_..._MASK constant below is
  modelled: the values follow the standard M_CAN register layout that the
  spec describes (single-register bit fields; interrupt-flag bits indexed
  by the Mcan_Interrupt enumeration, as the interrupt-routing loop in
  Mcan.c requires).  No claim depends on the particular placement of a
  field inside its register, only on the code reading and writing the
  fields it names.
-/

/-- Modelled from the spec: missing McanRegisters.h CCCR INIT bit mask. -/
def MCAN_CCCR_INIT_MASK : Nat := 0x1

/-- Modelled from the spec: missing McanRegisters.h CCCR CCE bit mask. -/
def MCAN_CCCR_CCE_MASK : Nat := 0x2

/-- Modelled from the spec: missing McanRegisters.h CCCR ASM bit mask. -/
def MCAN_CCCR_ASM_MASK : Nat := 0x4

/-- Modelled from the spec: missing McanRegisters.h CCCR CSA bit mask. -/
def MCAN_CCCR_CSA_MASK : Nat := 0x8

/-- Modelled from the spec: missing McanRegisters.h CCCR CSR bit mask. -/
def MCAN_CCCR_CSR_MASK : Nat := 0x10

/-- Modelled from the spec: missing McanRegisters.h CCCR MON bit mask. -/
def MCAN_CCCR_MON_MASK : Nat := 0x20

/-- Modelled from the spec: missing McanRegisters.h CCCR DAR bit mask. -/
def MCAN_CCCR_DAR_MASK : Nat := 0x40

/-- Modelled from the spec: missing McanRegisters.h CCCR TEST bit mask. -/
def MCAN_CCCR_TEST_MASK : Nat := 0x80

/-- Modelled from the spec: missing McanRegisters.h CCCR FDOE bit mask. -/
def MCAN_CCCR_FDOE_MASK : Nat := 0x100

/-- Modelled from the spec: missing McanRegisters.h TEST LBCK bit mask. -/
def MCAN_TEST_LBCK_MASK : Nat := 0x10

/-- Modelled from the spec: missing McanRegisters.h chip-configuration CAN
    DMA base address field (upper half-word). -/
def MCAN_CHIPCFG_CANXDMABA_OFFSET : Nat := 16

/-- Modelled from the spec: missing McanRegisters.h chip-configuration CAN
    DMA base address field mask. -/
def MCAN_CHIPCFG_CANXDMABA_MASK : Nat := 0xffff0000

/-- Modelled from the spec: missing McanRegisters.h NBTP field layout
    (offset, mask) for NBRP, NSJW, NTSEG1, NTSEG2. -/
def MCAN_NBTP_NBRP_OFFSET : Nat := 16

/-- Modelled from the spec: missing McanRegisters.h NBTP NBRP mask. -/
def MCAN_NBTP_NBRP_MASK : Nat := 0x01ff0000

/-- Modelled from the spec: missing McanRegisters.h NBTP NSJW offset. -/
def MCAN_NBTP_NSJW_OFFSET : Nat := 25

/-- Modelled from the spec: missing McanRegisters.h NBTP NSJW mask. -/
def MCAN_NBTP_NSJW_MASK : Nat := 0xfe000000

/-- Modelled from the spec: missing McanRegisters.h NBTP NTSEG1 offset. -/
def MCAN_NBTP_NTSEG1_OFFSET : Nat := 8

/-- Modelled from the spec: missing McanRegisters.h NBTP NTSEG1 mask. -/
def MCAN_NBTP_NTSEG1_MASK : Nat := 0xff00

/-- Modelled from the spec: missing McanRegisters.h NBTP NTSEG2 offset. -/
def MCAN_NBTP_NTSEG2_OFFSET : Nat := 0

/-- Modelled from the spec: missing McanRegisters.h NBTP NTSEG2 mask. -/
def MCAN_NBTP_NTSEG2_MASK : Nat := 0x7f

/-- Modelled from the spec: missing McanRegisters.h DBTP DBRP offset. -/
def MCAN_DBTP_DBRP_OFFSET : Nat := 16

/-- Modelled from the spec: missing McanRegisters.h DBTP DBRP mask. -/
def MCAN_DBTP_DBRP_MASK : Nat := 0x1f0000

/-- Modelled from the spec: missing McanRegisters.h DBTP DSJW offset. -/
def MCAN_DBTP_DSJW_OFFSET : Nat := 0

/-- Modelled from the spec: missing McanRegisters.h DBTP DSJW mask. -/
def MCAN_DBTP_DSJW_MASK : Nat := 0xf

/-- Modelled from the spec: missing McanRegisters.h DBTP DTSEG1 offset. -/
def MCAN_DBTP_DTSEG1_OFFSET : Nat := 8

/-- Modelled from the spec: missing McanRegisters.h DBTP DTSEG1 mask. -/
def MCAN_DBTP_DTSEG1_MASK : Nat := 0x1f00

/-- Modelled from the spec: missing McanRegisters.h DBTP DTSEG2 offset. -/
def MCAN_DBTP_DTSEG2_OFFSET : Nat := 4

/-- Modelled from the spec: missing McanRegisters.h DBTP DTSEG2 mask. -/
def MCAN_DBTP_DTSEG2_MASK : Nat := 0xf0

/-- Modelled from the spec: missing McanRegisters.h DBTP TDC bit offset. -/
def MCAN_DBTP_TDC_OFFSET : Nat := 23

/-- Modelled from the spec: missing McanRegisters.h TDCR TDCF offset. -/
def MCAN_TDCR_TDCF_OFFSET : Nat := 0

/-- Modelled from the spec: missing McanRegisters.h TDCR TDCF mask. -/
def MCAN_TDCR_TDCF_MASK : Nat := 0x7f

/-- Modelled from the spec: missing McanRegisters.h TDCR TDCO offset. -/
def MCAN_TDCR_TDCO_OFFSET : Nat := 8

/-- Modelled from the spec: missing McanRegisters.h TDCR TDCO mask. -/
def MCAN_TDCR_TDCO_MASK : Nat := 0x7f00

/-- Modelled from the spec: missing McanRegisters.h TSCC TSS offset. -/
def MCAN_TSCC_TSS_OFFSET : Nat := 0

/-- Modelled from the spec: missing McanRegisters.h TSCC TSS mask. -/
def MCAN_TSCC_TSS_MASK : Nat := 0x3

/-- Modelled from the spec: missing McanRegisters.h TSCC TCP offset. -/
def MCAN_TSCC_TCP_OFFSET : Nat := 16

/-- Modelled from the spec: missing McanRegisters.h TSCC TCP mask. -/
def MCAN_TSCC_TCP_MASK : Nat := 0xf0000

/-- Modelled from the spec: missing McanRegisters.h TOCC ETOC bit mask. -/
def MCAN_TOCC_ETOC_MASK : Nat := 0x1

/-- Modelled from the spec: missing McanRegisters.h TOCC TOS offset. -/
def MCAN_TOCC_TOS_OFFSET : Nat := 1

/-- Modelled from the spec: missing McanRegisters.h TOCC TOS mask. -/
def MCAN_TOCC_TOS_MASK : Nat := 0x6

/-- Modelled from the spec: missing McanRegisters.h TOCC TOP offset. -/
def MCAN_TOCC_TOP_OFFSET : Nat := 16

/-- Modelled from the spec: missing McanRegisters.h TOCC TOP mask. -/
def MCAN_TOCC_TOP_MASK : Nat := 0xffff0000

/-- Modelled from the spec: missing McanRegisters.h GFC RRFE bit mask. -/
def MCAN_GFC_RRFE_MASK : Nat := 0x1

/-- Modelled from the spec: missing McanRegisters.h GFC RRFS bit mask. -/
def MCAN_GFC_RRFS_MASK : Nat := 0x2

/-- Modelled from the spec: missing McanRegisters.h GFC ANFE offset. -/
def MCAN_GFC_ANFE_OFFSET : Nat := 2

/-- Modelled from the spec: missing McanRegisters.h GFC ANFE mask. -/
def MCAN_GFC_ANFE_MASK : Nat := 0xc

/-- Modelled from the spec: missing McanRegisters.h GFC ANFS offset. -/
def MCAN_GFC_ANFS_OFFSET : Nat := 4

/-- Modelled from the spec: missing McanRegisters.h GFC ANFS mask. -/
def MCAN_GFC_ANFS_MASK : Nat := 0x30

/-- Modelled from the spec: missing McanRegisters.h SIDFC FLSSA mask
    (word-aligned filter list start address). -/
def MCAN_SIDFC_FLSSA_MASK : Nat := 0xfffc

/-- Modelled from the spec: missing McanRegisters.h SIDFC LSS offset. -/
def MCAN_SIDFC_LSS_OFFSET : Nat := 16

/-- Modelled from the spec: missing McanRegisters.h SIDFC LSS mask. -/
def MCAN_SIDFC_LSS_MASK : Nat := 0xff0000

/-- Modelled from the spec: missing McanRegisters.h XIDFC FLESA mask. -/
def MCAN_XIDFC_FLESA_MASK : Nat := 0xfffc

/-- Modelled from the spec: missing McanRegisters.h XIDFC LSE offset. -/
def MCAN_XIDFC_LSE_OFFSET : Nat := 16

/-- Modelled from the spec: missing McanRegisters.h XIDFC LSE mask. -/
def MCAN_XIDFC_LSE_MASK : Nat := 0x7f0000

/-- Modelled from the spec: missing McanRegisters.h XIDAM EIDM mask. -/
def MCAN_XIDAM_EIDM_MASK : Nat := 0x1fffffff

/-- Modelled from the spec: missing McanRegisters.h RXF0C F0SA mask. -/
def MCAN_RXF0C_F0SA_MASK : Nat := 0xfffc

/-- Modelled from the spec: missing McanRegisters.h RXF0C F0S offset. -/
def MCAN_RXF0C_F0S_OFFSET : Nat := 16

/-- Modelled from the spec: missing McanRegisters.h RXF0C F0S mask. -/
def MCAN_RXF0C_F0S_MASK : Nat := 0x7f0000

/-- Modelled from the spec: missing McanRegisters.h RXF0C F0WM offset. -/
def MCAN_RXF0C_F0WM_OFFSET : Nat := 24

/-- Modelled from the spec: missing McanRegisters.h RXF0C F0WM mask. -/
def MCAN_RXF0C_F0WM_MASK : Nat := 0x7f000000

/-- Modelled from the spec: missing McanRegisters.h RXF0C F0OM offset. -/
def MCAN_RXF0C_F0OM_OFFSET : Nat := 31

/-- Modelled from the spec: missing McanRegisters.h RXF0C F0OM mask. -/
def MCAN_RXF0C_F0OM_MASK : Nat := 0x80000000

/-- Modelled from the spec: missing McanRegisters.h RXF1C F1SA mask. -/
def MCAN_RXF1C_F1SA_MASK : Nat := 0xfffc

/-- Modelled from the spec: missing McanRegisters.h RXF1C F1S offset. -/
def MCAN_RXF1C_F1S_OFFSET : Nat := 16

/-- Modelled from the spec: missing McanRegisters.h RXF1C F1S mask. -/
def MCAN_RXF1C_F1S_MASK : Nat := 0x7f0000

/-- Modelled from the spec: missing McanRegisters.h RXF1C F1WM offset. -/
def MCAN_RXF1C_F1WM_OFFSET : Nat := 24

/-- Modelled from the spec: missing McanRegisters.h RXF1C F1WM mask. -/
def MCAN_RXF1C_F1WM_MASK : Nat := 0x7f000000

/-- Modelled from the spec: missing McanRegisters.h RXF1C F1OM offset. -/
def MCAN_RXF1C_F1OM_OFFSET : Nat := 31

/-- Modelled from the spec: missing McanRegisters.h RXF1C F1OM mask. -/
def MCAN_RXF1C_F1OM_MASK : Nat := 0x80000000

/-- Modelled from the spec: missing McanRegisters.h RXESC F0DS offset. -/
def MCAN_RXESC_F0DS_OFFSET : Nat := 0

/-- Modelled from the spec: missing McanRegisters.h RXESC F0DS mask. -/
def MCAN_RXESC_F0DS_MASK : Nat := 0x7

/-- Modelled from the spec: missing McanRegisters.h RXESC F1DS offset. -/
def MCAN_RXESC_F1DS_OFFSET : Nat := 4

/-- Modelled from the spec: missing McanRegisters.h RXESC F1DS mask. -/
def MCAN_RXESC_F1DS_MASK : Nat := 0x70

/-- Modelled from the spec: missing McanRegisters.h RXESC RBDS offset. -/
def MCAN_RXESC_RBDS_OFFSET : Nat := 8

/-- Modelled from the spec: missing McanRegisters.h RXESC RBDS mask. -/
def MCAN_RXESC_RBDS_MASK : Nat := 0x700

/-- Modelled from the spec: missing McanRegisters.h RXBC RBSA mask. -/
def MCAN_RXBC_RBSA_MASK : Nat := 0xfffc

/-- Modelled from the spec: missing McanRegisters.h TXBC TBSA mask. -/
def MCAN_TXBC_TBSA_MASK : Nat := 0xfffc

/-- Modelled from the spec: missing McanRegisters.h TXBC NDTB offset. -/
def MCAN_TXBC_NDTB_OFFSET : Nat := 16

/-- Modelled from the spec: missing McanRegisters.h TXBC NDTB mask. -/
def MCAN_TXBC_NDTB_MASK : Nat := 0x3f0000

/-- Modelled from the spec: missing McanRegisters.h TXBC TFQS offset. -/
def MCAN_TXBC_TFQS_OFFSET : Nat := 24

/-- Modelled from the spec: missing McanRegisters.h TXBC TFQS mask. -/
def MCAN_TXBC_TFQS_MASK : Nat := 0x3f000000

/-- Modelled from the spec: missing McanRegisters.h TXBC TFQM offset. -/
def MCAN_TXBC_TFQM_OFFSET : Nat := 30

/-- Modelled from the spec: missing McanRegisters.h TXBC TFQM mask. -/
def MCAN_TXBC_TFQM_MASK : Nat := 0x40000000

/-- Modelled from the spec: missing McanRegisters.h TXESC TBDS offset. -/
def MCAN_TXESC_TBDS_OFFSET : Nat := 0

/-- Modelled from the spec: missing McanRegisters.h TXESC TBDS mask. -/
def MCAN_TXESC_TBDS_MASK : Nat := 0x7

/-- Modelled from the spec: missing McanRegisters.h TXEFC EFSA mask. -/
def MCAN_TXEFC_EFSA_MASK : Nat := 0xfffc

/-- Modelled from the spec: missing McanRegisters.h TXEFC EFS offset. -/
def MCAN_TXEFC_EFS_OFFSET : Nat := 16

/-- Modelled from the spec: missing McanRegisters.h TXEFC EFS mask. -/
def MCAN_TXEFC_EFS_MASK : Nat := 0x3f0000

/-- Modelled from the spec: missing McanRegisters.h TXEFC EFWM offset. -/
def MCAN_TXEFC_EFWM_OFFSET : Nat := 24

/-- Modelled from the spec: missing McanRegisters.h TXEFC EFWM mask. -/
def MCAN_TXEFC_EFWM_MASK : Nat := 0x3f000000

/-- Modelled from the spec: missing McanRegisters.h ILE EINT0 offset. -/
def MCAN_ILE_EINT0_OFFSET : Nat := 0

/-- Modelled from the spec: missing McanRegisters.h ILE EINT1 offset. -/
def MCAN_ILE_EINT1_OFFSET : Nat := 1

/-- Modelled from the spec: missing McanRegisters.h RWD WDC offset. -/
def MCAN_RWD_WDC_OFFSET : Nat := 0

/-- Modelled from the spec: missing McanRegisters.h RWD WDC mask. -/
def MCAN_RWD_WDC_MASK : Nat := 0xff

/-- Modelled from the spec: missing McanRegisters.h TXFQS TFQF bit offset
    (hardware-maintained Tx queue full flag). -/
def MCAN_TXFQS_TFQF_OFFSET : Nat := 21

/-- Modelled from the spec: missing McanRegisters.h TXFQS TFQPI offset
    (hardware-maintained Tx queue put index). -/
def MCAN_TXFQS_TFQPI_OFFSET : Nat := 16

/-- Modelled from the spec: missing McanRegisters.h TXFQS TFQPI mask. -/
def MCAN_TXFQS_TFQPI_MASK : Nat := 0x1f0000

/-- Modelled from the spec: missing McanRegisters.h RXF0S F0FL offset
    (hardware-maintained Rx FIFO fill level). -/
def MCAN_RXF0S_F0FL_OFFSET : Nat := 0

/-- Modelled from the spec: missing McanRegisters.h RXF0S F0FL mask. -/
def MCAN_RXF0S_F0FL_MASK : Nat := 0x7f

/-- Modelled from the spec: missing McanRegisters.h RXF0S F0GI offset
    (hardware-maintained Rx FIFO get index). -/
def MCAN_RXF0S_F0GI_OFFSET : Nat := 8

/-- Modelled from the spec: missing McanRegisters.h RXF0S F0GI mask. -/
def MCAN_RXF0S_F0GI_MASK : Nat := 0x3f00

/-- Modelled from the spec: missing McanRegisters.h interrupt-flag masks;
    bit positions follow the Mcan_Interrupt enumeration of Mcan.h, as the
    interrupt-routing loop in Mcan.c assumes. -/
def MCAN_IR_RF0N_MASK : Nat := 1 <<< 0

/-- Modelled from the spec: missing McanRegisters.h IR RF0W mask. -/
def MCAN_IR_RF0W_MASK : Nat := 1 <<< 1

/-- Modelled from the spec: missing McanRegisters.h IR RF0F mask. -/
def MCAN_IR_RF0F_MASK : Nat := 1 <<< 2

/-- Modelled from the spec: missing McanRegisters.h IR RF0L mask. -/
def MCAN_IR_RF0L_MASK : Nat := 1 <<< 3

/-- Modelled from the spec: missing McanRegisters.h IR RF1N mask. -/
def MCAN_IR_RF1N_MASK : Nat := 1 <<< 4

/-- Modelled from the spec: missing McanRegisters.h IR RF1W mask. -/
def MCAN_IR_RF1W_MASK : Nat := 1 <<< 5

/-- Modelled from the spec: missing McanRegisters.h IR RF1F mask. -/
def MCAN_IR_RF1F_MASK : Nat := 1 <<< 6

/-- Modelled from the spec: missing McanRegisters.h IR RF1L mask. -/
def MCAN_IR_RF1L_MASK : Nat := 1 <<< 7

/-- Modelled from the spec: missing McanRegisters.h IR HPM mask. -/
def MCAN_IR_HPM_MASK : Nat := 1 <<< 8

/-- Modelled from the spec: missing McanRegisters.h IR TC mask. -/
def MCAN_IR_TC_MASK : Nat := 1 <<< 9

/-- Modelled from the spec: missing McanRegisters.h IR TCF mask. -/
def MCAN_IR_TCF_MASK : Nat := 1 <<< 10

/-- Modelled from the spec: missing McanRegisters.h IR TFE mask. -/
def MCAN_IR_TFE_MASK : Nat := 1 <<< 11

/-- Modelled from the spec: missing McanRegisters.h IR TEFN mask. -/
def MCAN_IR_TEFN_MASK : Nat := 1 <<< 12

/-- Modelled from the spec: missing McanRegisters.h IR TEFW mask. -/
def MCAN_IR_TEFW_MASK : Nat := 1 <<< 13

/-- Modelled from the spec: missing McanRegisters.h IR TEFF mask. -/
def MCAN_IR_TEFF_MASK : Nat := 1 <<< 14

/-- Modelled from the spec: missing McanRegisters.h IR TEFL mask. -/
def MCAN_IR_TEFL_MASK : Nat := 1 <<< 15

/-- Modelled from the spec: missing McanRegisters.h IR TSW mask. -/
def MCAN_IR_TSW_MASK : Nat := 1 <<< 16

/-- Modelled from the spec: missing McanRegisters.h IR MRAF mask. -/
def MCAN_IR_MRAF_MASK : Nat := 1 <<< 17

/-- Modelled from the spec: missing McanRegisters.h IR TOO mask. -/
def MCAN_IR_TOO_MASK : Nat := 1 <<< 18

/-- Modelled from the spec: missing McanRegisters.h IR DRX mask. -/
def MCAN_IR_DRX_MASK : Nat := 1 <<< 19

/-- Modelled from the spec: missing McanRegisters.h IR ELO mask. -/
def MCAN_IR_ELO_MASK : Nat := 1 <<< 22

/-- Modelled from the spec: missing McanRegisters.h IR EP mask. -/
def MCAN_IR_EP_MASK : Nat := 1 <<< 23

/-- Modelled from the spec: missing McanRegisters.h IR EW mask. -/
def MCAN_IR_EW_MASK : Nat := 1 <<< 24

/-- Modelled from the spec: missing McanRegisters.h IR BO mask. -/
def MCAN_IR_BO_MASK : Nat := 1 <<< 25

/-- Modelled from the spec: missing McanRegisters.h IR WDI mask. -/
def MCAN_IR_WDI_MASK : Nat := 1 <<< 26

/-- Modelled from the spec: missing McanRegisters.h IR PEA mask. -/
def MCAN_IR_PEA_MASK : Nat := 1 <<< 27

/-- Modelled from the spec: missing McanRegisters.h IR PED mask. -/
def MCAN_IR_PED_MASK : Nat := 1 <<< 28

/-- Modelled from the spec: missing McanRegisters.h IR ARA mask. -/
def MCAN_IR_ARA_MASK : Nat := 1 <<< 29

/-- Modelled from the spec: missing McanRegisters.h Tx element word layout:
    word 0 holds ESI, XTD, RTR and the identifier fields. -/
def MCAN_TXELEMENT_ESI_WORD : Nat := 0

/-- Modelled from the spec: missing McanRegisters.h Tx element ESI offset. -/
def MCAN_TXELEMENT_ESI_OFFSET : Nat := 31

/-- Modelled from the spec: missing McanRegisters.h Tx element ESI mask. -/
def MCAN_TXELEMENT_ESI_MASK : Nat := 0x80000000

/-- Modelled from the spec: missing McanRegisters.h Tx element XTD word. -/
def MCAN_TXELEMENT_XTD_WORD : Nat := 0

/-- Modelled from the spec: missing McanRegisters.h Tx element XTD offset. -/
def MCAN_TXELEMENT_XTD_OFFSET : Nat := 30

/-- Modelled from the spec: missing McanRegisters.h Tx element XTD mask. -/
def MCAN_TXELEMENT_XTD_MASK : Nat := 0x40000000

/-- Modelled from the spec: missing McanRegisters.h Tx element RTR word. -/
def MCAN_TXELEMENT_RTR_WORD : Nat := 0

/-- Modelled from the spec: missing McanRegisters.h Tx element RTR offset. -/
def MCAN_TXELEMENT_RTR_OFFSET : Nat := 29

/-- Modelled from the spec: missing McanRegisters.h Tx element RTR mask. -/
def MCAN_TXELEMENT_RTR_MASK : Nat := 0x20000000

/-- Modelled from the spec: missing McanRegisters.h Tx element STDID word. -/
def MCAN_TXELEMENT_STDID_WORD : Nat := 0

/-- Modelled from the spec: missing McanRegisters.h Tx element STDID
    offset. -/
def MCAN_TXELEMENT_STDID_OFFSET : Nat := 18

/-- Modelled from the spec: missing McanRegisters.h Tx element STDID mask. -/
def MCAN_TXELEMENT_STDID_MASK : Nat := 0x1ffc0000

/-- Modelled from the spec: missing McanRegisters.h Tx element EXTID word. -/
def MCAN_TXELEMENT_EXTID_WORD : Nat := 0

/-- Modelled from the spec: missing McanRegisters.h Tx element EXTID
    offset. -/
def MCAN_TXELEMENT_EXTID_OFFSET : Nat := 0

/-- Modelled from the spec: missing McanRegisters.h Tx element EXTID mask. -/
def MCAN_TXELEMENT_EXTID_MASK : Nat := 0x1fffffff

/-- Modelled from the spec: missing McanRegisters.h Tx element MM word. -/
def MCAN_TXELEMENT_MM_WORD : Nat := 1

/-- Modelled from the spec: missing McanRegisters.h Tx element MM offset. -/
def MCAN_TXELEMENT_MM_OFFSET : Nat := 24

/-- Modelled from the spec: missing McanRegisters.h Tx element MM mask. -/
def MCAN_TXELEMENT_MM_MASK : Nat := 0xff000000

/-- Modelled from the spec: missing McanRegisters.h Tx element EFC word. -/
def MCAN_TXELEMENT_EFC_WORD : Nat := 1

/-- Modelled from the spec: missing McanRegisters.h Tx element EFC mask. -/
def MCAN_TXELEMENT_EFC_MASK : Nat := 0x800000

/-- Modelled from the spec: missing McanRegisters.h Tx element FDF word. -/
def MCAN_TXELEMENT_FDF_WORD : Nat := 1

/-- Modelled from the spec: missing McanRegisters.h Tx element FDF mask. -/
def MCAN_TXELEMENT_FDF_MASK : Nat := 0x200000

/-- Modelled from the spec: missing McanRegisters.h Tx element BRS word. -/
def MCAN_TXELEMENT_BRS_WORD : Nat := 1

/-- Modelled from the spec: missing McanRegisters.h Tx element BRS mask. -/
def MCAN_TXELEMENT_BRS_MASK : Nat := 0x100000

/-- Modelled from the spec: missing McanRegisters.h Tx element DLC word. -/
def MCAN_TXELEMENT_DLC_WORD : Nat := 1

/-- Modelled from the spec: missing McanRegisters.h Tx element DLC offset. -/
def MCAN_TXELEMENT_DLC_OFFSET : Nat := 16

/-- Modelled from the spec: missing McanRegisters.h Tx element DLC mask. -/
def MCAN_TXELEMENT_DLC_MASK : Nat := 0xf0000

/-- Modelled from the spec: missing McanRegisters.h Rx element field layout
    (word 0: ESI, XTD, RTR, identifier; word 1: ANMF, FIDX, FDF, BRS,
    timestamp, DLC). -/
def MCAN_RXELEMENT_ESI_WORD : Nat := 0

/-- Modelled from the spec: missing McanRegisters.h Rx element ESI offset. -/
def MCAN_RXELEMENT_ESI_OFFSET : Nat := 31

/-- Modelled from the spec: missing McanRegisters.h Rx element ESI mask. -/
def MCAN_RXELEMENT_ESI_MASK : Nat := 0x80000000

/-- Modelled from the spec: missing McanRegisters.h Rx element XTD word. -/
def MCAN_RXELEMENT_XTD_WORD : Nat := 0

/-- Modelled from the spec: missing McanRegisters.h Rx element XTD offset. -/
def MCAN_RXELEMENT_XTD_OFFSET : Nat := 30

/-- Modelled from the spec: missing McanRegisters.h Rx element XTD mask. -/
def MCAN_RXELEMENT_XTD_MASK : Nat := 0x40000000

/-- Modelled from the spec: missing McanRegisters.h Rx element RTR word. -/
def MCAN_RXELEMENT_RTR_WORD : Nat := 0

/-- Modelled from the spec: missing McanRegisters.h Rx element RTR offset. -/
def MCAN_RXELEMENT_RTR_OFFSET : Nat := 29

/-- Modelled from the spec: missing McanRegisters.h Rx element RTR mask. -/
def MCAN_RXELEMENT_RTR_MASK : Nat := 0x20000000

/-- Modelled from the spec: missing McanRegisters.h Rx element STDID word. -/
def MCAN_RXELEMENT_STDID_WORD : Nat := 0

/-- Modelled from the spec: missing McanRegisters.h Rx element STDID
    offset. -/
def MCAN_RXELEMENT_STDID_OFFSET : Nat := 18

/-- Modelled from the spec: missing McanRegisters.h Rx element STDID mask. -/
def MCAN_RXELEMENT_STDID_MASK : Nat := 0x1ffc0000

/-- Modelled from the spec: missing McanRegisters.h Rx element EXTID word. -/
def MCAN_RXELEMENT_EXTID_WORD : Nat := 0

/-- Modelled from the spec: missing McanRegisters.h Rx element EXTID
    offset. -/
def MCAN_RXELEMENT_EXTID_OFFSET : Nat := 0

/-- Modelled from the spec: missing McanRegisters.h Rx element EXTID mask. -/
def MCAN_RXELEMENT_EXTID_MASK : Nat := 0x1fffffff

/-- Modelled from the spec: missing McanRegisters.h Rx element ANMF word. -/
def MCAN_RXELEMENT_ANMF_WORD : Nat := 1

/-- Modelled from the spec: missing McanRegisters.h Rx element ANMF
    offset. -/
def MCAN_RXELEMENT_ANMF_OFFSET : Nat := 31

/-- Modelled from the spec: missing McanRegisters.h Rx element ANMF mask. -/
def MCAN_RXELEMENT_ANMF_MASK : Nat := 0x80000000

/-- Modelled from the spec: missing McanRegisters.h Rx element FIDX word. -/
def MCAN_RXELEMENT_FIDX_WORD : Nat := 1

/-- Modelled from the spec: missing McanRegisters.h Rx element FIDX
    offset. -/
def MCAN_RXELEMENT_FIDX_OFFSET : Nat := 24

/-- Modelled from the spec: missing McanRegisters.h Rx element FIDX mask. -/
def MCAN_RXELEMENT_FIDX_MASK : Nat := 0x7f000000

/-- Modelled from the spec: missing McanRegisters.h Rx element FDF word. -/
def MCAN_RXELEMENT_FDF_WORD : Nat := 1

/-- Modelled from the spec: missing McanRegisters.h Rx element FDF
    offset. -/
def MCAN_RXELEMENT_FDF_OFFSET : Nat := 21

/-- Modelled from the spec: missing McanRegisters.h Rx element BRS word. -/
def MCAN_RXELEMENT_BRS_WORD : Nat := 1

/-- Modelled from the spec: missing McanRegisters.h Rx element BRS
    offset. -/
def MCAN_RXELEMENT_BRS_OFFSET : Nat := 20

/-- Modelled from the spec: missing McanRegisters.h Rx element RXTS word. -/
def MCAN_RXELEMENT_RXTS_WORD : Nat := 1

/-- Modelled from the spec: missing McanRegisters.h Rx element RXTS
    offset. -/
def MCAN_RXELEMENT_RXTS_OFFSET : Nat := 0

/-- Modelled from the spec: missing McanRegisters.h Rx element RXTS mask. -/
def MCAN_RXELEMENT_RXTS_MASK : Nat := 0xffff

/-- Modelled from the spec: missing McanRegisters.h Rx element DLC word. -/
def MCAN_RXELEMENT_DLC_WORD : Nat := 1

/-- Modelled from the spec: missing McanRegisters.h Rx element DLC
    offset. -/
def MCAN_RXELEMENT_DLC_OFFSET : Nat := 16

/-- Modelled from the spec: missing McanRegisters.h Rx element DLC mask. -/
def MCAN_RXELEMENT_DLC_MASK : Nat := 0xf0000

/-- Mcan.h Mcan_Mode: requestable operating modes. -/
inductive Mcan_Mode where
  | normal
  | automaticRetransmissionDisabled
  | restricted
  | busMonitoring
  | powerDown
  | internalLoopBackTest
  | invalid
deriving DecidableEq, Repr

/-- Mcan.h Mcan_BitTiming. -/
structure Mcan_BitTiming where
  bitRatePrescaler : Nat
  synchronizationJump : Nat
  timeSegmentAfterSamplePoint : Nat
  timeSegmentBeforeSamplePoint : Nat
deriving DecidableEq, Repr

/-- Mcan.h Mcan_TransmitterDelayCompensation. -/
structure Mcan_TransmitterDelayCompensation where
  isEnabled : Bool
  filter : Nat
  offset : Nat
deriving DecidableEq, Repr

/-- Mcan.h Mcan_TimeoutConfig. -/
structure Mcan_TimeoutConfig where
  isEnabled : Bool
  type : Nat
  period : Nat
deriving DecidableEq, Repr

/-- Mcan.h Mcan_IdFilter (the filter list address is a byte address in
    message RAM). -/
structure Mcan_IdFilter where
  isIdRejected : Bool
  nonMatchingPolicy : Nat
  filterListAddress : Nat
  filterListSize : Nat
deriving DecidableEq, Repr

/-- Mcan.h Mcan_RxFifoConfig. -/
structure Mcan_RxFifoConfig where
  isEnabled : Bool
  startAddress : Nat
  size : Nat
  watermark : Nat
  mode : Nat
  elementSize : Mcan_ElementSize
deriving DecidableEq, Repr

/-- Mcan.h Mcan_RxBufferConfig. -/
structure Mcan_RxBufferConfig where
  startAddress : Nat
  elementSize : Mcan_ElementSize
deriving DecidableEq, Repr

/-- Mcan.h Mcan_TxBufferConfig. -/
structure Mcan_TxBufferConfig where
  isEnabled : Bool
  startAddress : Nat
  bufferSize : Nat
  queueSize : Nat
  queueType : Nat
  elementSize : Mcan_ElementSize
deriving DecidableEq, Repr

/-- Mcan.h Mcan_TxEventFifoConfig. -/
structure Mcan_TxEventFifoConfig where
  isEnabled : Bool
  startAddress : Nat
  size : Nat
  watermark : Nat
deriving DecidableEq, Repr

/-- Mcan.h Mcan_InterruptConfig (line is the numeric interrupt line). -/
structure Mcan_InterruptConfig where
  isEnabled : Bool
  line : Nat
deriving DecidableEq, Repr

/-- Mcan.h Mcan_Interrupt_Count. -/
def Mcan_Interrupt_Count : Nat := 30

/-- Mcan.h Mcan_Interrupt_Reserved1. -/
def Mcan_Interrupt_Reserved1 : Nat := 20

/-- Mcan.h Mcan_Interrupt_Reserved2. -/
def Mcan_Interrupt_Reserved2 : Nat := 21

/-- Mcan.h Mcan_Config: the full configuration descriptor. -/
structure Mcan_Config where
  msgRamBaseAddress : Nat
  mode : Mcan_Mode
  isFdEnabled : Bool
  nominalBitTiming : Mcan_BitTiming
  dataBitTiming : Mcan_BitTiming
  transmitterDelayCompensation : Mcan_TransmitterDelayCompensation
  timestampClk : Nat
  timestampTimeoutPrescaler : Nat
  timeout : Mcan_TimeoutConfig
  standardIdFilter : Mcan_IdFilter
  extendedIdFilter : Mcan_IdFilter
  rxFifo0 : Mcan_RxFifoConfig
  rxFifo1 : Mcan_RxFifoConfig
  rxBuffer : Mcan_RxBufferConfig
  txBuffer : Mcan_TxBufferConfig
  txEventFifo : Mcan_TxEventFifoConfig
  interrupts : Nat → Mcan_InterruptConfig
  isLine0InterruptEnabled : Bool
  isLine1InterruptEnabled : Bool
  wdtCounter : Nat

/-- Mcan.h Mcan_IdType. -/
inductive Mcan_IdType where
  | standard
  | extended
deriving DecidableEq, Repr

/-- Numeric value of the C enum Mcan_IdType. -/
def Mcan_IdType.toNat : Mcan_IdType → Nat
  | .standard => 0
  | .extended => 1

/-- Mcan.h Mcan_TxElement: the logical Tx frame descriptor (esiFlag and
    frameType carry their C enum values; data is the payload byte list). -/
structure Mcan_TxElement where
  esiFlag : Nat
  idType : Mcan_IdType
  frameType : Nat
  id : Nat
  marker : Nat
  isTxEventStored : Bool
  isCanFdFormatEnabled : Bool
  isBitRateSwitchingEnabled : Bool
  dataSize : Nat
  data : List Nat
  isInterruptEnabled : Bool
deriving DecidableEq, Repr

/-- Mcan.h Mcan_RxElement: the logical Rx frame descriptor produced by
    decoding a stored element. -/
structure Mcan_RxElement where
  esiFlag : Nat
  idType : Nat
  frameType : Nat
  id : Nat
  isNonMatchingFrame : Nat
  filterIndex : Nat
  isCanFdFormatEnabled : Bool
  isBitRateSwitchingEnabled : Bool
  timestamp : Nat
  dataSize : Nat
  data : List Nat
deriving DecidableEq, Repr

/-- Mcan.h Mcan_RxFifoId. -/
inductive Mcan_RxFifoId where
  | fifo0
  | fifo1
deriving DecidableEq, Repr

/-- Mcan.h Mcan_InterruptStatus: one boolean per interrupt flag. -/
structure Mcan_InterruptStatus where
  hasRf0nOccurred : Bool
  hasRf0wOccurred : Bool
  hasRf0fOccurred : Bool
  hasRf0lOccurred : Bool
  hasRf1nOccurred : Bool
  hasRf1wOccurred : Bool
  hasRf1fOccurred : Bool
  hasRf1lOccurred : Bool
  hasHpmOccurred : Bool
  hasTcOccurred : Bool
  hasTcfOccurred : Bool
  hasTfeOccurred : Bool
  hasTefnOccurred : Bool
  hasTefwOccurred : Bool
  hasTeffOccurred : Bool
  hasTeflOccurred : Bool
  hasTswOccurred : Bool
  hasMrafOccurred : Bool
  hasTooOccurred : Bool
  hasDrxOccurred : Bool
  hasEloOccurred : Bool
  hasEpOccurred : Bool
  hasEwOccurred : Bool
  hasBoOccurred : Bool
  hasWdiOccurred : Bool
  hasPeaOccurred : Bool
  hasPedOccurred : Bool
  hasAraOccurred : Bool
deriving DecidableEq, Repr

/-- Mcan.c setMsgRamBaseAddress: record the base and program the upper
    half-word into the chip-configuration DMA base register. -/
def setMsgRamBaseAddress (config : Mcan_Config) : M Unit := do
  modifyMcan fun m => { m with msgRamBaseAddress := config.msgRamBaseAddress }
  setValueAtOffset .canDma (config.msgRamBaseAddress >>> 16)
    MCAN_CHIPCFG_CANXDMABA_OFFSET MCAN_CHIPCFG_CANXDMABA_MASK

/-- Mcan.c setPowerDownMode: request clock stop and wait for the
    acknowledge bit within the iteration budget. -/
def setPowerDownMode (timeoutLimit : Nat) : M (Bool × Option Mcan_ErrorCode) := do
  orReg .cccr MCAN_CCCR_CSR_MASK
  let ok ← waitForRegisterWithTimeout .cccr MCAN_CCCR_CSA_MASK timeoutLimit
  if !ok then
    pure (returnError .ClockStopRequestTimeout)
  else
    pure (true, none)

/-- The opening of Mcan.c setMode: set the FD-operation enable bit when
    CAN-FD is requested. -/
def setModeFdFlag (config : Mcan_Config) : M Unit :=
  if config.isFdEnabled then orReg .cccr MCAN_CCCR_FDOE_MASK else pure ()

/-- Mcan.c setMode: apply the requested operating mode by setting control
    bits; an invalid mode fails with ModeInvalid. -/
def setMode (config : Mcan_Config) (timeoutLimit : Nat) :
    M (Bool × Option Mcan_ErrorCode) := do
  setModeFdFlag config
  match config.mode with
  | .normal => pure (true, none)
  | .automaticRetransmissionDisabled => do
      orReg .cccr MCAN_CCCR_DAR_MASK
      pure (true, none)
  | .restricted => do
      orReg .cccr MCAN_CCCR_ASM_MASK
      pure (true, none)
  | .busMonitoring => do
      orReg .cccr MCAN_CCCR_MON_MASK
      pure (true, none)
  | .powerDown => do
      let r ← setPowerDownMode timeoutLimit
      if !r.1 then pure r else pure (true, none)
  | .internalLoopBackTest => do
      orReg .cccr MCAN_CCCR_TEST_MASK
      orReg .cccr MCAN_CCCR_MON_MASK
      writeReg .test MCAN_TEST_LBCK_MASK
      pure (true, none)
  | .invalid => pure (returnError .ModeInvalid)

/-- Mcan.c setNominalTiming (with the C assert on the segment before the
    sample point). -/
def setNominalTiming (config : Mcan_Config) : M Unit := do
  cassert (config.nominalBitTiming.timeSegmentBeforeSamplePoint > 0)
  writeReg .nbtp
    (shiftValueLeft config.nominalBitTiming.bitRatePrescaler
        MCAN_NBTP_NBRP_OFFSET MCAN_NBTP_NBRP_MASK |||
      shiftValueLeft config.nominalBitTiming.timeSegmentAfterSamplePoint
        MCAN_NBTP_NTSEG2_OFFSET MCAN_NBTP_NTSEG2_MASK |||
      shiftValueLeft config.nominalBitTiming.timeSegmentBeforeSamplePoint
        MCAN_NBTP_NTSEG1_OFFSET MCAN_NBTP_NTSEG1_MASK |||
      shiftValueLeft config.nominalBitTiming.synchronizationJump
        MCAN_NBTP_NSJW_OFFSET MCAN_NBTP_NSJW_MASK)

/-- Mcan.c setDataTiming (with the C assert). -/
def setDataTiming (config : Mcan_Config) : M Unit := do
  cassert (config.dataBitTiming.timeSegmentBeforeSamplePoint > 0)
  writeReg .dbtp
    (shiftValueLeft config.dataBitTiming.bitRatePrescaler
        MCAN_DBTP_DBRP_OFFSET MCAN_DBTP_DBRP_MASK |||
      shiftValueLeft config.dataBitTiming.timeSegmentAfterSamplePoint
        MCAN_DBTP_DTSEG2_OFFSET MCAN_DBTP_DTSEG2_MASK |||
      shiftValueLeft config.dataBitTiming.timeSegmentBeforeSamplePoint
        MCAN_DBTP_DTSEG1_OFFSET MCAN_DBTP_DTSEG1_MASK |||
      shiftValueLeft config.dataBitTiming.synchronizationJump
        MCAN_DBTP_DSJW_OFFSET MCAN_DBTP_DSJW_MASK)

/-- Mcan.c setTransmitterDelayCompensation. -/
def setTransmitterDelayCompensation
    (config : Mcan_TransmitterDelayCompensation) : M Unit := do
  changeBitAtOffset .dbtp MCAN_DBTP_TDC_OFFSET config.isEnabled
  writeReg .tdcr
    (shiftValueLeft config.filter MCAN_TDCR_TDCF_OFFSET MCAN_TDCR_TDCF_MASK |||
      shiftValueLeft config.offset MCAN_TDCR_TDCO_OFFSET MCAN_TDCR_TDCO_MASK)

/-- Mcan.c setTimestamp: program clock source and prescaler, clear the
    timestamp counter. -/
def setTimestamp (config : Mcan_Config) : M Unit := do
  writeReg .tscc
    (shiftValueLeft config.timestampClk MCAN_TSCC_TSS_OFFSET MCAN_TSCC_TSS_MASK |||
      shiftValueLeft config.timestampTimeoutPrescaler
        MCAN_TSCC_TCP_OFFSET MCAN_TSCC_TCP_MASK)
  writeReg .tscv 0

/-- Mcan.c setTimeout. -/
def setTimeout (config : Mcan_TimeoutConfig) : M Unit := do
  if config.isEnabled then
    writeReg .tocc
      (MCAN_TOCC_ETOC_MASK |||
        shiftValueLeft config.type MCAN_TOCC_TOS_OFFSET MCAN_TOCC_TOS_MASK |||
        shiftValueLeft config.period MCAN_TOCC_TOP_OFFSET MCAN_TOCC_TOP_MASK)
  else
    writeReg .tocc 0

/-- Mcan.c setStandardIdFiltering. -/
def setStandardIdFiltering (config : Mcan_Config) : M Unit := do
  if config.standardIdFilter.isIdRejected then
    orReg .gfc MCAN_GFC_RRFS_MASK
    writeReg .sidfc 0
    modifyMcan fun m =>
      { m with rxStdFilterAddress := none, rxStdFilterSize := 0 }
  else
    orReg .gfc
      (shiftValueLeft config.standardIdFilter.nonMatchingPolicy
        MCAN_GFC_ANFS_OFFSET MCAN_GFC_ANFS_MASK)
    writeReg .sidfc
      ((config.standardIdFilter.filterListAddress &&& MCAN_SIDFC_FLSSA_MASK) |||
        shiftValueLeft config.standardIdFilter.filterListSize
          MCAN_SIDFC_LSS_OFFSET MCAN_SIDFC_LSS_MASK)
    modifyMcan fun m =>
      { m with
          rxStdFilterAddress := some config.standardIdFilter.filterListAddress,
          rxStdFilterSize := config.standardIdFilter.filterListSize }

/-- Mcan.c setExtendedIdFiltering. -/
def setExtendedIdFiltering (config : Mcan_Config) : M Unit := do
  if config.extendedIdFilter.isIdRejected then
    orReg .gfc MCAN_GFC_RRFE_MASK
    writeReg .xidfc 0
    modifyMcan fun m =>
      { m with rxExtFilterAddress := none, rxExtFilterSize := 0 }
  else
    orReg .gfc
      (shiftValueLeft config.extendedIdFilter.nonMatchingPolicy
        MCAN_GFC_ANFE_OFFSET MCAN_GFC_ANFE_MASK)
    writeReg .xidfc
      ((config.extendedIdFilter.filterListAddress &&& MCAN_XIDFC_FLESA_MASK) |||
        shiftValueLeft config.extendedIdFilter.filterListSize
          MCAN_XIDFC_LSE_OFFSET MCAN_XIDFC_LSE_MASK)
    modifyMcan fun m =>
      { m with
          rxExtFilterAddress := some config.extendedIdFilter.filterListAddress,
          rxExtFilterSize := config.extendedIdFilter.filterListSize }

/-- Mcan.c setRxFifo0. -/
def setRxFifo0 (config : Mcan_Config) : M Unit := do
  andNotReg .rxesc MCAN_RXESC_F0DS_MASK
  if config.rxFifo0.isEnabled then
    writeReg .rxf0c
      ((config.rxFifo0.startAddress &&& MCAN_RXF0C_F0SA_MASK) |||
        shiftValueLeft config.rxFifo0.size MCAN_RXF0C_F0S_OFFSET MCAN_RXF0C_F0S_MASK |||
        shiftValueLeft config.rxFifo0.watermark MCAN_RXF0C_F0WM_OFFSET MCAN_RXF0C_F0WM_MASK |||
        shiftValueLeft config.rxFifo0.mode MCAN_RXF0C_F0OM_OFFSET MCAN_RXF0C_F0OM_MASK)
    orReg .rxesc
      (shiftValueLeft config.rxFifo0.elementSize.toNat
        MCAN_RXESC_F0DS_OFFSET MCAN_RXESC_F0DS_MASK)
    modifyMcan fun m =>
      { m with rxFifo0 :=
          { address := some config.rxFifo0.startAddress,
            size := config.rxFifo0.size,
            elementSize := decodeRxElementSizeInBytes config.rxFifo0.elementSize } }
  else
    writeReg .rxf0c 0
    modifyMcan fun m =>
      { m with rxFifo0 := { address := none, size := 0, elementSize := 0 } }

/-- Mcan.c setRxFifo1. -/
def setRxFifo1 (config : Mcan_Config) : M Unit := do
  andNotReg .rxesc MCAN_RXESC_F1DS_MASK
  if config.rxFifo1.isEnabled then
    writeReg .rxf1c
      ((config.rxFifo1.startAddress &&& MCAN_RXF1C_F1SA_MASK) |||
        shiftValueLeft config.rxFifo1.size MCAN_RXF1C_F1S_OFFSET MCAN_RXF1C_F1S_MASK |||
        shiftValueLeft config.rxFifo1.watermark MCAN_RXF1C_F1WM_OFFSET MCAN_RXF1C_F1WM_MASK |||
        shiftValueLeft config.rxFifo1.mode MCAN_RXF1C_F1OM_OFFSET MCAN_RXF1C_F1OM_MASK)
    orReg .rxesc
      (shiftValueLeft config.rxFifo1.elementSize.toNat
        MCAN_RXESC_F1DS_OFFSET MCAN_RXESC_F1DS_MASK)
    modifyMcan fun m =>
      { m with rxFifo1 :=
          { address := some config.rxFifo1.startAddress,
            size := config.rxFifo1.size,
            elementSize := decodeRxElementSizeInBytes config.rxFifo1.elementSize } }
  else
    writeReg .rxf1c 0
    modifyMcan fun m =>
      { m with rxFifo1 := { address := none, size := 0, elementSize := 0 } }

/-- Mcan.c setRxBuffer. -/
def setRxBuffer (config : Mcan_Config) : M Unit := do
  writeReg .rxbc (config.rxBuffer.startAddress &&& MCAN_RXBC_RBSA_MASK)
  setValueAtOffset .rxesc config.rxBuffer.elementSize.toNat
    MCAN_RXESC_RBDS_OFFSET MCAN_RXESC_RBDS_MASK
  modifyMcan fun m =>
    { m with
        rxBufferAddress := some config.rxBuffer.startAddress,
        rxBufferElementSize := decodeRxElementSizeInBytes config.rxBuffer.elementSize }

/-- Mcan.c setTxBuffer: validate the element size, assert the combined
    buffer/queue limit, program the Tx buffer registers and record the
    layout (the queue base is derived from the buffer base). -/
def setTxBuffer (config : Mcan_Config) : M Bool := do
  if config.txBuffer.isEnabled then
    let txElementSize := decodeTxElementSizeInBytes config.txBuffer.elementSize
    if txElementSize = MCAN_TXELEMENT_SIZE_INVALID then
      pure false
    else
      cassert (config.txBuffer.bufferSize + config.txBuffer.queueSize ≤ 32)
      writeReg .txbc
        ((config.txBuffer.startAddress &&& MCAN_TXBC_TBSA_MASK) |||
          shiftValueLeft config.txBuffer.bufferSize MCAN_TXBC_NDTB_OFFSET MCAN_TXBC_NDTB_MASK |||
          shiftValueLeft config.txBuffer.queueSize MCAN_TXBC_TFQS_OFFSET MCAN_TXBC_TFQS_MASK |||
          shiftValueLeft config.txBuffer.queueType MCAN_TXBC_TFQM_OFFSET MCAN_TXBC_TFQM_MASK)
      writeReg .txesc
        (shiftValueLeft config.txBuffer.elementSize.toNat
          MCAN_TXESC_TBDS_OFFSET MCAN_TXESC_TBDS_MASK)
      modifyMcan fun m =>
        { m with tx :=
            { bufferAddress := some config.txBuffer.startAddress,
              bufferSize := config.txBuffer.bufferSize,
              queueAddress := some (config.txBuffer.startAddress +
                4 * ((txElementSize * config.txBuffer.bufferSize) / 4)),
              queueSize := config.txBuffer.queueSize,
              elementSize := txElementSize } }
      pure true
  else
    writeReg .txbc 0
    writeReg .txesc 0
    modifyMcan fun m =>
      { m with tx :=
          { bufferAddress := none, bufferSize := 0, queueAddress := none,
            queueSize := 0, elementSize := 0 } }
    pure true

/-- Mcan.c setTxEventFifo. -/
def setTxEventFifo (config : Mcan_Config) : M Unit := do
  if config.txEventFifo.isEnabled then
    writeReg .txefc
      ((config.txEventFifo.startAddress &&& MCAN_TXEFC_EFSA_MASK) |||
        shiftValueLeft config.txEventFifo.size MCAN_TXEFC_EFS_OFFSET MCAN_TXEFC_EFS_MASK |||
        shiftValueLeft config.txEventFifo.watermark MCAN_TXEFC_EFWM_OFFSET MCAN_TXEFC_EFWM_MASK)
    modifyMcan fun m =>
      { m with
          txEventFifoAddress := some config.txEventFifo.startAddress,
          txEventFifoSize := config.txEventFifo.size }
  else
    writeReg .txefc 0
    modifyMcan fun m =>
      { m with txEventFifoAddress := none, txEventFifoSize := 0 }

/-- One iteration of the interrupt-routing loop in Mcan.c setInterrupts. -/
def setInterruptsBody (config : Mcan_Config) (i : Nat) : M Unit := do
  if i ≠ Mcan_Interrupt_Reserved1 ∧ i ≠ Mcan_Interrupt_Reserved2 then
    writeReg .ir (shiftBitLeft true i)
    changeBitAtOffset .ie i (config.interrupts i).isEnabled
    changeBitAtOffset .ils i ((config.interrupts i).line ≠ 0)

/-- The counted for-loop of Mcan.c setInterrupts, iterating the body from
    index i for n further steps (written with a bare recursor so that the
    kernel can evaluate it on concrete inputs). -/
def setInterruptsLoop (config : Mcan_Config) (i n : Nat) : M Unit :=
  Nat.rec (motive := fun _ => Nat → M Unit)
    (fun _ => pure ())
    (fun _ ih j => setInterruptsBody config j >>= fun _ => ih (j + 1))
    n i

/-- Mcan.c setInterrupts: route every interrupt source, program the line
    enables, and clear both transmission interrupt enables. -/
def setInterrupts (config : Mcan_Config) : M Unit := do
  setInterruptsLoop config 0 Mcan_Interrupt_Count
  writeReg .ile
    (shiftBitLeft config.isLine0InterruptEnabled MCAN_ILE_EINT0_OFFSET |||
      shiftBitLeft config.isLine1InterruptEnabled MCAN_ILE_EINT1_OFFSET)
  writeReg .txbtie 0
  writeReg .txbcie 0

/-- The CAN-FD-only part of the Mcan_setConfig sequence: data bit timing
    and transmitter delay compensation are programmed only when CAN-FD is
    enabled. -/
def setFdTimingIfEnabled (config : Mcan_Config) : M Unit :=
  if config.isFdEnabled then do
    setDataTiming config
    setTransmitterDelayCompensation config.transmitterDelayCompensation
  else pure ()

/-- Mcan.c Mcan_setConfig: the full configuration sequence. -/
def Mcan_setConfig (config : Mcan_Config) (timeoutLimit : Nat) :
    M (Bool × Option Mcan_ErrorCode) := do
  setMsgRamBaseAddress config
  writeReg .cccr MCAN_CCCR_INIT_MASK
  let ok ← waitForRegisterWithTimeout .cccr MCAN_CCCR_INIT_MASK timeoutLimit
  if !ok then
    pure (returnError .InitializationStartTimeout)
  else
    orReg .cccr MCAN_CCCR_CCE_MASK
    writeReg .cccr (MCAN_CCCR_CCE_MASK ||| MCAN_CCCR_INIT_MASK)
    writeReg .gfc 0
    let r ← setMode config timeoutLimit
    if !r.1 then
      pure (false, r.2)
    else
      setNominalTiming config
      setFdTimingIfEnabled config
      setTimestamp config
      setTimeout config.timeout
      setStandardIdFiltering config
      setExtendedIdFiltering config
      setRxFifo0 config
      setRxFifo1 config
      setRxBuffer config
      let okTx ← setTxBuffer config
      if !okTx then
        pure (returnError .ElementSizeInvalid)
      else
        setTxEventFifo config
        setInterrupts config
        writeReg .rwd
          (shiftValueLeft config.wdtCounter MCAN_RWD_WDC_OFFSET MCAN_RWD_WDC_MASK)
        writeReg .xidam MCAN_XIDAM_EIDM_MASK
        andNotReg .cccr MCAN_CCCR_INIT_MASK
        pure (true, none)

/-- Mcan.c txAddElement: encode a Tx element into a message-RAM slot; an
    unencodable data size fails before any memory or register access. -/
def txAddElement (element : Mcan_TxElement) (baseAddress : Nat) (index : Nat) :
    M Bool := do
  let dataLengthCode := encodeDataLengthCode element.dataSize
  if dataLengthCode = MCAN_DLC_INVALID then
    pure false
  else
    let m ← getMcan
    memsetRam baseAddress m.tx.elementSize
    orRamWord (baseAddress + 4 * MCAN_TXELEMENT_ESI_WORD)
      (shiftValueLeft element.esiFlag MCAN_TXELEMENT_ESI_OFFSET MCAN_TXELEMENT_ESI_MASK)
    orRamWord (baseAddress + 4 * MCAN_TXELEMENT_XTD_WORD)
      (shiftValueLeft element.idType.toNat MCAN_TXELEMENT_XTD_OFFSET MCAN_TXELEMENT_XTD_MASK)
    orRamWord (baseAddress + 4 * MCAN_TXELEMENT_RTR_WORD)
      (shiftValueLeft element.frameType MCAN_TXELEMENT_RTR_OFFSET MCAN_TXELEMENT_RTR_MASK)
    orRamWord (baseAddress + 4 * MCAN_TXELEMENT_MM_WORD)
      (shiftValueLeft element.marker MCAN_TXELEMENT_MM_OFFSET MCAN_TXELEMENT_MM_MASK)
    if element.idType = .standard then
      orRamWord (baseAddress + 4 * MCAN_TXELEMENT_STDID_WORD)
        (shiftValueLeft element.id MCAN_TXELEMENT_STDID_OFFSET MCAN_TXELEMENT_STDID_MASK)
    else
      orRamWord (baseAddress + 4 * MCAN_TXELEMENT_EXTID_WORD)
        (shiftValueLeft element.id MCAN_TXELEMENT_EXTID_OFFSET MCAN_TXELEMENT_EXTID_MASK)
    if element.isTxEventStored then
      orRamWord (baseAddress + 4 * MCAN_TXELEMENT_EFC_WORD) MCAN_TXELEMENT_EFC_MASK
    if element.isCanFdFormatEnabled then
      orRamWord (baseAddress + 4 * MCAN_TXELEMENT_FDF_WORD) MCAN_TXELEMENT_FDF_MASK
    if element.isBitRateSwitchingEnabled then
      orRamWord (baseAddress + 4 * MCAN_TXELEMENT_BRS_WORD) MCAN_TXELEMENT_BRS_MASK
    orRamWord (baseAddress + 4 * MCAN_TXELEMENT_DLC_WORD)
      (shiftValueLeft dataLengthCode MCAN_TXELEMENT_DLC_OFFSET MCAN_TXELEMENT_DLC_MASK)
    memcpyRamFromList (baseAddress + 4 * MCAN_TXELEMENT_DATA_WORD)
      element.data element.dataSize
    changeBitAtOffset .txbtie index element.isInterruptEnabled
    pure true

/-- Mcan.c Mcan_txBufferAdd: bounds-check the index, encode the element at
    the indexed slot and request its transmission. -/
def Mcan_txBufferAdd (element : Mcan_TxElement) (index : Nat) :
    M (Bool × Option Mcan_ErrorCode) := do
  let m ← getMcan
  if index ≥ m.tx.bufferSize then
    pure (returnError .IndexOutOfRange)
  else
    let bufferPointer := m.tx.bufferAddress.getD 0 +
      4 * ((m.tx.elementSize * index) / 4)
    let ok ← txAddElement element bufferPointer index
    if !ok then
      pure (returnError .ElementSizeInvalid)
    else
      writeReg .txbar (1 <<< index)
      pure (true, none)

/-- Mcan.c Mcan_txQueuePush: consult the hardware queue-full flag, then
    write the element at the hardware put index.  The out-parameter index
    is the third component of the result (none when never assigned). -/
def Mcan_txQueuePush (element : Mcan_TxElement) :
    M (Bool × Option Mcan_ErrorCode × Option Nat) := do
  let txfqs ← readReg .txfqs
  let full := isBitSet txfqs MCAN_TXFQS_TFQF_OFFSET
  if full then
    pure (false, some .TxFifoFull, none)
  else
    let index :=
      getValueAtOffset txfqs MCAN_TXFQS_TFQPI_OFFSET MCAN_TXFQS_TFQPI_MASK &&& 0xff
    let m ← getMcan
    let baseAddr := m.tx.bufferAddress.getD 0 +
      4 * ((m.tx.elementSize * index) / 4)
    let ok ← txAddElement element baseAddr index
    if !ok then
      pure (false, some .ElementSizeInvalid, some index)
    else
      writeReg .txbar (1 <<< index)
      pure (true, none, some index)

/-- Mcan.c getRxElement: decode a stored Rx element from message RAM. -/
def getRxElement (baseAddr : Nat) : M Mcan_RxElement := do
  let esiWord ← readRamWord (baseAddr + 4 * MCAN_RXELEMENT_ESI_WORD)
  let esiFlag := getValueAtOffset esiWord MCAN_RXELEMENT_ESI_OFFSET MCAN_RXELEMENT_ESI_MASK
  let xtdWord ← readRamWord (baseAddr + 4 * MCAN_RXELEMENT_XTD_WORD)
  let idType := getValueAtOffset xtdWord MCAN_RXELEMENT_XTD_OFFSET MCAN_RXELEMENT_XTD_MASK
  let rtrWord ← readRamWord (baseAddr + 4 * MCAN_RXELEMENT_RTR_WORD)
  let frameType := getValueAtOffset rtrWord MCAN_RXELEMENT_RTR_OFFSET MCAN_RXELEMENT_RTR_MASK
  let id ←
    if idType = Mcan_IdType.standard.toNat then do
      let w ← readRamWord (baseAddr + 4 * MCAN_RXELEMENT_STDID_WORD)
      pure (getValueAtOffset w MCAN_RXELEMENT_STDID_OFFSET MCAN_RXELEMENT_STDID_MASK)
    else do
      let w ← readRamWord (baseAddr + 4 * MCAN_RXELEMENT_EXTID_WORD)
      pure (getValueAtOffset w MCAN_RXELEMENT_EXTID_OFFSET MCAN_RXELEMENT_EXTID_MASK)
  let anmfWord ← readRamWord (baseAddr + 4 * MCAN_RXELEMENT_ANMF_WORD)
  let isNonMatchingFrame :=
    getValueAtOffset anmfWord MCAN_RXELEMENT_ANMF_OFFSET MCAN_RXELEMENT_ANMF_MASK
  let fidxWord ← readRamWord (baseAddr + 4 * MCAN_RXELEMENT_FIDX_WORD)
  let filterIndex :=
    getValueAtOffset fidxWord MCAN_RXELEMENT_FIDX_OFFSET MCAN_RXELEMENT_FIDX_MASK &&& 0xff
  let fdfWord ← readRamWord (baseAddr + 4 * MCAN_RXELEMENT_FDF_WORD)
  let isCanFdFormatEnabled := isBitSet fdfWord MCAN_RXELEMENT_FDF_OFFSET
  let brsWord ← readRamWord (baseAddr + 4 * MCAN_RXELEMENT_BRS_WORD)
  let isBitRateSwitchingEnabled := isBitSet brsWord MCAN_RXELEMENT_BRS_OFFSET
  let rxtsWord ← readRamWord (baseAddr + 4 * MCAN_RXELEMENT_RXTS_WORD)
  let timestamp :=
    getValueAtOffset rxtsWord MCAN_RXELEMENT_RXTS_OFFSET MCAN_RXELEMENT_RXTS_MASK &&& 0xffff
  let dlcWord ← readRamWord (baseAddr + 4 * MCAN_RXELEMENT_DLC_WORD)
  let dataSize := decodeDataLengthCode
    (getValueAtOffset dlcWord MCAN_RXELEMENT_DLC_OFFSET MCAN_RXELEMENT_DLC_MASK &&& 0xff)
    isCanFdFormatEnabled &&& 0xff
  let data ← readRamBytes (baseAddr + 4 * MCAN_RXELEMENT_DATA_WORD) dataSize
  pure
    { esiFlag := esiFlag, idType := idType, frameType := frameType, id := id,
      isNonMatchingFrame := isNonMatchingFrame, filterIndex := filterIndex,
      isCanFdFormatEnabled := isCanFdFormatEnabled,
      isBitRateSwitchingEnabled := isBitRateSwitchingEnabled,
      timestamp := timestamp, dataSize := dataSize, data := data }

/-- Mcan.c Mcan_rxFifoPull: select the FIFO, check configuration and fill
    level, decode the element at the hardware get index and acknowledge.
    The decoded element is the third component of the result (none when
    never assigned). -/
def Mcan_rxFifoPull (id : Mcan_RxFifoId) :
    M (Bool × Option Mcan_ErrorCode × Option Mcan_RxElement) := do
  let m ← getMcan
  let (rxfs, fifoAddress, elementSize, ackReg) ←
    match id with
    | .fifo0 => do
        let v ← readReg .rxf0s
        pure (v, m.rxFifo0.address, m.rxFifo0.elementSize, RegName.rxf0a)
    | .fifo1 => do
        let v ← readReg .rxf1s
        pure (v, m.rxFifo1.address, m.rxFifo1.elementSize, RegName.rxf1a)
  match fifoAddress with
  | none => pure (false, some .InvalidRxFifoId, none)
  | some addr =>
      let count := getValueAtOffset rxfs MCAN_RXF0S_F0FL_OFFSET MCAN_RXF0S_F0FL_MASK &&& 0xff
      if count = 0 then
        pure (false, some .RxFifoEmpty, none)
      else
        let getIndex :=
          getValueAtOffset rxfs MCAN_RXF0S_F0GI_OFFSET MCAN_RXF0S_F0GI_MASK &&& 0xff
        let e ← getRxElement (addr + 4 * ((elementSize * getIndex) / 4))
        writeReg ackReg getIndex
        pure (true, none, some e)

/-- Mcan.c Mcan_getInterruptStatus: read the raw interrupt flag register,
    write the same value back, and fan the bits out into the status. -/
def Mcan_getInterruptStatus : M Mcan_InterruptStatus := do
  let flags ← readReg .ir
  writeReg .ir flags
  pure
    { hasRf0nOccurred := flags &&& MCAN_IR_RF0N_MASK != 0
      hasRf0wOccurred := flags &&& MCAN_IR_RF0W_MASK != 0
      hasRf0fOccurred := flags &&& MCAN_IR_RF0F_MASK != 0
      hasRf0lOccurred := flags &&& MCAN_IR_RF0L_MASK != 0
      hasRf1nOccurred := flags &&& MCAN_IR_RF1N_MASK != 0
      hasRf1wOccurred := flags &&& MCAN_IR_RF1W_MASK != 0
      hasRf1fOccurred := flags &&& MCAN_IR_RF1F_MASK != 0
      hasRf1lOccurred := flags &&& MCAN_IR_RF1L_MASK != 0
      hasHpmOccurred := flags &&& MCAN_IR_HPM_MASK != 0
      hasTcOccurred := flags &&& MCAN_IR_TC_MASK != 0
      hasTcfOccurred := flags &&& MCAN_IR_TCF_MASK != 0
      hasTfeOccurred := flags &&& MCAN_IR_TFE_MASK != 0
      hasTefnOccurred := flags &&& MCAN_IR_TEFN_MASK != 0
      hasTefwOccurred := flags &&& MCAN_IR_TEFW_MASK != 0
      hasTeffOccurred := flags &&& MCAN_IR_TEFF_MASK != 0
      hasTeflOccurred := flags &&& MCAN_IR_TEFL_MASK != 0
      hasTswOccurred := flags &&& MCAN_IR_TSW_MASK != 0
      hasMrafOccurred := flags &&& MCAN_IR_MRAF_MASK != 0
      hasTooOccurred := flags &&& MCAN_IR_TOO_MASK != 0
      hasDrxOccurred := flags &&& MCAN_IR_DRX_MASK != 0
      hasEloOccurred := flags &&& MCAN_IR_ELO_MASK != 0
      hasEpOccurred := flags &&& MCAN_IR_EP_MASK != 0
      hasEwOccurred := flags &&& MCAN_IR_EW_MASK != 0
      hasBoOccurred := flags &&& MCAN_IR_BO_MASK != 0
      hasWdiOccurred := flags &&& MCAN_IR_WDI_MASK != 0
      hasPeaOccurred := flags &&& MCAN_IR_PEA_MASK != 0
      hasPedOccurred := flags &&& MCAN_IR_PED_MASK != 0
      hasAraOccurred := flags &&& MCAN_IR_ARA_MASK != 0 }

/-- The final state of an outcome. -/
def outcomeState {α : Type} : Outcome α → HwState
  | .ok _ s => s
  | .assertFail s => s

/-- A computation is tame when, on every state and for either outcome, it
    leaves the recorded Tx buffer/queue layout unchanged and performs no
    write to the Tx buffer configuration register.  Every piece of
    Mcan_setConfig except setTxBuffer is tame. -/
def Tame {α : Type} (m : M α) : Prop :=
  ∀ s : HwState,
    (outcomeState (m s)).mcan.tx = s.mcan.tx ∧
    writeCount .txbc (outcomeState (m s)).trace = writeCount .txbc s.trace

/-- The status register polled by Mcan_rxFifoPull for a FIFO id. -/
def rxStatusRegOf : Mcan_RxFifoId → RegName
  | .fifo0 => .rxf0s
  | .fifo1 => .rxf1s

/-- The recorded descriptor consulted by Mcan_rxFifoPull for a FIFO id. -/
def rxFifoOf (m : Mcan) : Mcan_RxFifoId → Mcan_RxFifo
  | .fifo0 => m.rxFifo0
  | .fifo1 => m.rxFifo1

/-- The trace produced by n consecutive polls of a register starting at a
    given read count. -/
def pollReads (oracle : Nat → RegName → Nat) (r : RegName) : Nat → Nat → List Ev
  | _, 0 => []
  | base, Nat.succ n =>
      Ev.readReg r (oracle base r &&& 0xffffffff) :: pollReads oracle r (base + 1) n

/-- A hardware oracle answering every read with the same value. -/
def constOracle (v : Nat) : Nat → RegName → Nat := fun _ _ => v

/-- A fresh device state over a given oracle: descriptor as left by
    Mcan_init, zeroed message RAM, empty trace. -/
def initStateWith (oracle : Nat → RegName → Nat) : HwState :=
  { mcan := Mcan_init, ram := fun _ => 0, oracle := oracle,
    readCnt := 0, trace := [] }

/-- A concrete, fully populated configuration descriptor used to evaluate
    the theorems on explicit inputs: normal mode, no CAN-FD, both filter
    lists rejected, both Rx FIFOs and the Tx event FIFO disabled, a Tx
    buffer of 2 dedicated slots plus a queue of 3 with 8-byte elements. -/
def sampleConfig : Mcan_Config :=
  { msgRamBaseAddress := 0x20400000
    mode := .normal
    isFdEnabled := false
    nominalBitTiming :=
      { bitRatePrescaler := 1, synchronizationJump := 1,
        timeSegmentAfterSamplePoint := 1, timeSegmentBeforeSamplePoint := 1 }
    dataBitTiming :=
      { bitRatePrescaler := 1, synchronizationJump := 1,
        timeSegmentAfterSamplePoint := 1, timeSegmentBeforeSamplePoint := 1 }
    transmitterDelayCompensation := { isEnabled := false, filter := 0, offset := 0 }
    timestampClk := 0
    timestampTimeoutPrescaler := 0
    timeout := { isEnabled := false, type := 0, period := 0 }
    standardIdFilter :=
      { isIdRejected := true, nonMatchingPolicy := 0,
        filterListAddress := 0, filterListSize := 0 }
    extendedIdFilter :=
      { isIdRejected := true, nonMatchingPolicy := 0,
        filterListAddress := 0, filterListSize := 0 }
    rxFifo0 :=
      { isEnabled := false, startAddress := 0, size := 0, watermark := 0,
        mode := 0, elementSize := .size8 }
    rxFifo1 :=
      { isEnabled := false, startAddress := 0, size := 0, watermark := 0,
        mode := 0, elementSize := .size8 }
    rxBuffer := { startAddress := 0, elementSize := .size8 }
    txBuffer :=
      { isEnabled := true, startAddress := 1024, bufferSize := 2,
        queueSize := 3, queueType := 0, elementSize := .size8 }
    txEventFifo := { isEnabled := false, startAddress := 0, size := 0, watermark := 0 }
    interrupts := fun _ => { isEnabled := false, line := 0 }
    isLine0InterruptEnabled := false
    isLine1InterruptEnabled := false
    wdtCounter := 0 }

/-- The sample configuration with an oversized Tx area: 20 dedicated
    buffers plus a queue of 13 exceeds the 32-slot addressing limit. -/
def overLimitConfig : Mcan_Config :=
  { sampleConfig with
      txBuffer :=
        { isEnabled := true, startAddress := 1024, bufferSize := 20,
          queueSize := 13, queueType := 0, elementSize := .size8 } }

/-- Executable check for the C2 counterexample: running Mcan_setConfig on
    the over-limit configuration (with an oracle that grants configuration
    access at once) ends in an assertion failure, not in an error return,
    and by then the Rx FIFO 0 configuration register has been written. -/
def overLimitCheck : Bool :=
  match Mcan_setConfig overLimitConfig 1 (initStateWith (constOracle 1)) with
  | .ok _ _ => false
  | .assertFail s1 => decide (0 < writeCount .rxf0c s1.trace)

/-- The outcome of Mcan_setConfig on the sample configuration with an
    oracle that acknowledges at once (used by witnesses). -/
def sampleRun : Outcome (Bool × Option Mcan_ErrorCode) :=
  Mcan_setConfig sampleConfig 1 (initStateWith (constOracle 1))

/-- The success flag of the sample run (true when the call returned and
    reported success). -/
def sampleRunSucceeded : Bool :=
  match sampleRun with
  | .ok r _ => r.1
  | .assertFail _ => false

/-- A sample Tx element whose data size 9 has no DLC encoding. -/
def badSizeElement : Mcan_TxElement :=
  { esiFlag := 0, idType := .standard, frameType := 0, id := 5, marker := 0,
    isTxEventStored := false, isCanFdFormatEnabled := false,
    isBitRateSwitchingEnabled := false, dataSize := 9,
    data := [1, 2, 3, 4, 5, 6, 7, 8, 9], isInterruptEnabled := false }

/-- The value returned by the pending read of the interrupt flag register
    in a given state. -/
def irRead (s : HwState) : Nat :=
  s.oracle s.readCnt RegName.ir &&& 0xffffffff

/-- A fresh state whose descriptor has Rx FIFO 0 configured (as left by a
    successful configuration with a 4-element, 16-byte-stride FIFO at byte
    address 512) over a given oracle. -/
def rxConfiguredState (oracle : Nat → RegName → Nat) : HwState :=
  { mcan :=
      { Mcan_init with
          rxFifo0 := { address := some 512, size := 4, elementSize := 16 } }
    ram := fun _ => 0, oracle := oracle, readCnt := 0, trace := [] }

/-- Unfolding lemma for bind on M. -/
theorem M_bind_def {α β : Type} (m : M α) (f : α → M β) (s : HwState) :
    (m >>= f) s =
      match m s with
      | .ok a s1 => f a s1
      | .assertFail s1 => .assertFail s1 := rfl

/-- Unfolding lemma for pure on M. -/
theorem M_pure_def {α : Type} (a : α) (s : HwState) :
    (pure a : M α) s = .ok a s := rfl

/-- C5: for every DLC code 0..8 the decoded length is the code itself for
    both values of the CAN-FD flag, and for every code 9..15 decoding with
    the CAN-FD flag false yields 8. -/
theorem decodeDataLengthCode_low_and_nonFd :
    (∀ dlc : Nat, dlc ≤ 8 →
      decodeDataLengthCode dlc true = dlc ∧ decodeDataLengthCode dlc false = dlc) ∧
    (∀ dlc : Nat, 9 ≤ dlc → dlc ≤ 15 → decodeDataLengthCode dlc false = 8) := by
  constructor
  · intro dlc h
    have hlt : dlc % 256 = dlc := Nat.mod_eq_of_lt (by omega)
    constructor <;>
      simp [decodeDataLengthCode, hlt, Mcan_DataLengthRaw_8, h]
  · intro dlc h9 h15
    interval_cases dlc <;> decide

/-- C6: encode is inverse to decode for all 8 legal element-size selectors
    (both Tx and Rx), and for every byte count below 256 that is not the
    decode image of a legal selector the encode functions yield Invalid. -/
theorem elementSize_encode_decode :
    (∀ x ∈ legalElementSizes,
      encodeTxElementSizeInBytes (decodeTxElementSizeInBytes x) = x ∧
      encodeRxElementSizeInBytes (decodeRxElementSizeInBytes x) = x) ∧
    (∀ b : Nat, b < 256 →
      (b ∉ legalElementSizes.map decodeTxElementSizeInBytes →
        encodeTxElementSizeInBytes b = .invalid) ∧
      (b ∉ legalElementSizes.map decodeRxElementSizeInBytes →
        encodeRxElementSizeInBytes b = .invalid)) := by
  constructor
  · decide
  · decide

/-- Witness for C6 at the concrete byte count 10 and the selector size8. -/
theorem elementSize_encode_decode_witness :
    (Mcan_ElementSize.size8 ∈ legalElementSizes ∧
      encodeTxElementSizeInBytes (decodeTxElementSizeInBytes .size8) = .size8 ∧
      encodeRxElementSizeInBytes (decodeRxElementSizeInBytes .size8) = .size8) ∧
    ((10 : Nat) < 256 ∧
      encodeTxElementSizeInBytes 10 = .invalid ∧
      encodeRxElementSizeInBytes 10 = .invalid) :=
  ⟨⟨by decide, elementSize_encode_decode.1 .size8 (by decide)⟩,
    by
      refine ⟨by decide, ?_, ?_⟩
      · exact (elementSize_encode_decode.2 10 (by decide)).1 (by decide)
      · exact (elementSize_encode_decode.2 10 (by decide)).2 (by decide)⟩

/-- Witness for C5 at the concrete codes 5 and 12. -/
theorem decodeDataLengthCode_low_and_nonFd_witness :
    ((5 : Nat) ≤ 8 ∧ decodeDataLengthCode 5 true = 5 ∧ decodeDataLengthCode 5 false = 5) ∧
    ((9 : Nat) ≤ 12 ∧ (12 : Nat) ≤ 15 ∧ decodeDataLengthCode 12 false = 8) :=
  ⟨⟨by decide, decodeDataLengthCode_low_and_nonFd.1 5 (by decide)⟩,
    ⟨by decide, by decide,
      decodeDataLengthCode_low_and_nonFd.2 12 (by decide) (by decide)⟩⟩

/-- Any masked single bit is nonzero exactly when the corresponding bit of
    the value is set. -/
theorem and_shift_ne_zero (v k : Nat) : (v &&& (1 <<< k) != 0) = v.testBit k := by
  rw [Nat.one_shiftLeft, Nat.and_two_pow]
  cases h : v.testBit k <;> simp [h, (Nat.two_pow_pos k).ne']

/-- Counting reads distributes over trace concatenation. -/
theorem readCount_append (r : RegName) (t1 t2 : List Ev) :
    readCount r (t1 ++ t2) = readCount r t1 + readCount r t2 :=
  List.countP_append _ _ _

/-- Counting writes distributes over trace concatenation. -/
theorem writeCount_append (r : RegName) (t1 t2 : List Ev) :
    writeCount r (t1 ++ t2) = writeCount r t1 + writeCount r t2 :=
  List.countP_append _ _ _

/-- A poll trace of length n contains exactly n reads of the polled
    register. -/
theorem readCount_pollReads (o : Nat → RegName → Nat) (r : RegName)
    (b n : Nat) : readCount r (pollReads o r b n) = n := by
  induction n generalizing b with
  | zero => simp [pollReads, readCount]
  | succ n ih => simp [pollReads, readCount, List.countP_cons] at ih ⊢; exact ih _

/-- A poll trace contains no writes at all. -/
theorem writeCount_pollReads (q : RegName) (o : Nat → RegName → Nat)
    (r : RegName) (b n : Nat) : writeCount q (pollReads o r b n) = 0 := by
  induction n generalizing b with
  | zero => simp [pollReads, writeCount]
  | succ n ih => simp [pollReads, writeCount, List.countP_cons] at ih ⊢; exact ih _

/-- When the oracle never raises any polled bit, the bounded wait runs its
    full budget, returns false, and the state change is exactly the n poll
    reads. -/
theorem waitFor_never (r : RegName) (mask : Nat) (n : Nat) (s : HwState)
    (h : ∀ k, (s.oracle k r &&& 0xffffffff) &&& mask = 0) :
    waitForRegisterWithTimeout r mask n s =
      .ok false
        { s with
            readCnt := s.readCnt + n,
            trace := s.trace ++ pollReads s.oracle r s.readCnt n } := by
  induction n generalizing s with
  | zero => simp [waitForRegisterWithTimeout, M_pure_def, pollReads]
  | succ n ih =>
      have hz := h s.readCnt
      simp only [waitForRegisterWithTimeout, M_bind_def, readReg, hz,
        ne_eq, not_true_eq_false, if_false, pollReads]
      rw [ih]
      · simp [Nat.add_assoc, Nat.add_comm 1 n]
      · intro k
        exact h k

/-- A bind whose first stage succeeded runs the continuation. -/
theorem M_bind_ok {α β : Type} {m : M α} {f : α → M β} {s s1 : HwState}
    {a : α} (h : m s = .ok a s1) : (m >>= f) s = f a s1 := by
  rw [M_bind_def, h]

/-- A bind whose first stage hit an assert propagates the failure. -/
theorem M_bind_fail {α β : Type} {m : M α} (f : α → M β) {s s1 : HwState}
    (h : m s = .assertFail s1) : (m >>= f) s = .assertFail s1 := by
  rw [M_bind_def, h]

/-- Inversion of a successful bind: both stages ran and succeeded. -/
theorem bind_ok_inv {α β : Type} {m : M α} {f : α → M β} {s sf : HwState}
    {b : β} (h : (m >>= f) s = .ok b sf) :
    ∃ a s1, m s = .ok a s1 ∧ f a s1 = .ok b sf := by
  cases hms : m s with
  | ok a s1 =>
      refine ⟨a, s1, rfl, ?_⟩
      rw [M_bind_ok hms] at h
      exact h
  | assertFail s1 =>
      rw [M_bind_fail f hms] at h
      exact absurd h (by simp)

/-- Binding preserves tameness. -/
theorem tame_bind {α β : Type} {m : M α} {f : α → M β}
    (hm : Tame m) (hf : ∀ a, Tame (f a)) : Tame (m >>= f) := by
  intro s
  have hm1 := hm s
  cases hms : m s with
  | ok a s1 =>
      rw [hms] at hm1
      simp only [outcomeState] at hm1
      have hf1 := hf a s1
      rw [M_bind_ok hms]
      exact ⟨hf1.1.trans hm1.1, hf1.2.trans hm1.2⟩
  | assertFail s1 =>
      rw [hms] at hm1
      rw [M_bind_fail f hms]
      exact hm1

/-- A conditional of tame branches is tame. -/
theorem tame_ite {α : Type} {c : Prop} [Decidable c] {m1 m2 : M α}
    (h1 : Tame m1) (h2 : Tame m2) : Tame (if c then m1 else m2) := by
  split <;> assumption

/-- Pure computations are tame. -/
theorem tame_pure {α : Type} (a : α) : Tame (pure a : M α) := by
  intro s
  rw [M_pure_def]
  exact ⟨rfl, rfl⟩

/-- Register reads are tame. -/
theorem tame_readReg (r : RegName) : Tame (readReg r) := by
  intro s
  simp [readReg, outcomeState, writeCount_append, writeCount, List.countP_cons]

/-- Writes to registers other than the Tx buffer configuration register
    are tame. -/
theorem tame_writeReg (r : RegName) (v : Nat) (hr : r ≠ .txbc) :
    Tame (writeReg r v) := by
  intro s
  simp [writeReg, outcomeState, writeCount_append, writeCount, List.countP_cons, hr]

/-- Reading the descriptor is tame. -/
theorem tame_getMcan : Tame getMcan := by
  intro s
  simp [getMcan, outcomeState]

/-- Descriptor updates that keep the tx field are tame. -/
theorem tame_modifyMcan (f : Mcan → Mcan) (hf : ∀ m, (f m).tx = m.tx) :
    Tame (modifyMcan f) := by
  intro s
  simp [modifyMcan, outcomeState, hf]

/-- Asserts are tame (they do not touch the state). -/
theorem tame_cassert (b : Bool) : Tame (cassert b) := by
  intro s
  simp only [cassert]
  split <;> simp [outcomeState]

/-- Read-modify-write of a non-txbc register is tame. -/
theorem tame_setValueAtOffset (r : RegName) (value offset mask : Nat)
    (hr : r ≠ .txbc) : Tame (setValueAtOffset r value offset mask) := by
  unfold setValueAtOffset
  exact tame_bind (tame_readReg r) fun v => tame_writeReg r _ hr

/-- Bit changes on a non-txbc register are tame. -/
theorem tame_changeBitAtOffset (r : RegName) (offset : Nat) (value : Bool)
    (hr : r ≠ .txbc) : Tame (changeBitAtOffset r offset value) := by
  unfold changeBitAtOffset
  exact tame_bind (tame_readReg r) fun v =>
    tame_ite (tame_writeReg r _ hr) (tame_writeReg r _ hr)

/-- Or-assignment on a non-txbc register is tame. -/
theorem tame_orReg (r : RegName) (x : Nat) (hr : r ≠ .txbc) :
    Tame (orReg r x) := by
  unfold orReg
  exact tame_bind (tame_readReg r) fun v => tame_writeReg r _ hr

/-- And-not-assignment on a non-txbc register is tame. -/
theorem tame_andNotReg (r : RegName) (mask : Nat) (hr : r ≠ .txbc) :
    Tame (andNotReg r mask) := by
  unfold andNotReg
  exact tame_bind (tame_readReg r) fun v => tame_writeReg r _ hr

/-- The bounded register poll is tame. -/
theorem tame_waitFor (r : RegName) (mask : Nat) :
    ∀ n, Tame (waitForRegisterWithTimeout r mask n)
  | 0 => tame_pure false
  | Nat.succ n => by
      unfold waitForRegisterWithTimeout
      exact tame_bind (tame_readReg r) fun v =>
        tame_ite (tame_pure true) (tame_waitFor r mask n)

/-- setMsgRamBaseAddress is tame. -/
theorem tame_setMsgRamBaseAddress (config : Mcan_Config) :
    Tame (setMsgRamBaseAddress config) := by
  unfold setMsgRamBaseAddress
  exact tame_bind (tame_modifyMcan _ fun m => rfl) fun _ =>
    tame_setValueAtOffset .canDma _ _ _ (by simp)

/-- setPowerDownMode is tame. -/
theorem tame_setPowerDownMode (timeoutLimit : Nat) :
    Tame (setPowerDownMode timeoutLimit) := by
  unfold setPowerDownMode
  exact tame_bind (tame_orReg .cccr _ (by simp)) fun _ =>
    tame_bind (tame_waitFor .cccr _ timeoutLimit) fun ok =>
      tame_ite (tame_pure _) (tame_pure _)

/-- The FD-flag opening of setMode is tame. -/
theorem tame_setModeFdFlag (config : Mcan_Config) :
    Tame (setModeFdFlag config) := by
  unfold setModeFdFlag
  exact tame_ite (tame_orReg .cccr _ (by simp)) (tame_pure _)

/-- setMode is tame for every requested mode. -/
theorem tame_setMode (config : Mcan_Config) (timeoutLimit : Nat) :
    Tame (setMode config timeoutLimit) := by
  unfold setMode
  refine tame_bind (tame_setModeFdFlag config) fun _ => ?_
  cases config.mode with
  | normal => exact tame_pure _
  | automaticRetransmissionDisabled =>
      exact tame_bind (tame_orReg .cccr _ (by simp)) fun _ => tame_pure _
  | restricted =>
      exact tame_bind (tame_orReg .cccr _ (by simp)) fun _ => tame_pure _
  | busMonitoring =>
      exact tame_bind (tame_orReg .cccr _ (by simp)) fun _ => tame_pure _
  | powerDown =>
      exact tame_bind (tame_setPowerDownMode timeoutLimit) fun r =>
        tame_ite (tame_pure _) (tame_pure _)
  | internalLoopBackTest =>
      exact tame_bind (tame_orReg .cccr _ (by simp)) fun _ =>
        tame_bind (tame_orReg .cccr _ (by simp)) fun _ =>
          tame_bind (tame_writeReg .test _ (by simp)) fun _ => tame_pure _
  | invalid => exact tame_pure _

/-- setNominalTiming is tame. -/
theorem tame_setNominalTiming (config : Mcan_Config) :
    Tame (setNominalTiming config) := by
  unfold setNominalTiming
  exact tame_bind (tame_cassert _) fun _ => tame_writeReg .nbtp _ (by simp)

/-- setDataTiming is tame. -/
theorem tame_setDataTiming (config : Mcan_Config) :
    Tame (setDataTiming config) := by
  unfold setDataTiming
  exact tame_bind (tame_cassert _) fun _ => tame_writeReg .dbtp _ (by simp)

/-- setTransmitterDelayCompensation is tame. -/
theorem tame_setTransmitterDelayCompensation
    (config : Mcan_TransmitterDelayCompensation) :
    Tame (setTransmitterDelayCompensation config) := by
  unfold setTransmitterDelayCompensation
  exact tame_bind (tame_changeBitAtOffset .dbtp _ _ (by simp)) fun _ =>
    tame_writeReg .tdcr _ (by simp)

/-- The CAN-FD-only timing step is tame. -/
theorem tame_setFdTimingIfEnabled (config : Mcan_Config) :
    Tame (setFdTimingIfEnabled config) := by
  unfold setFdTimingIfEnabled
  refine tame_ite ?_ (tame_pure _)
  exact tame_bind (tame_setDataTiming config) fun _ =>
    tame_setTransmitterDelayCompensation _

/-- setTimestamp is tame. -/
theorem tame_setTimestamp (config : Mcan_Config) :
    Tame (setTimestamp config) := by
  unfold setTimestamp
  exact tame_bind (tame_writeReg .tscc _ (by simp)) fun _ =>
    tame_writeReg .tscv _ (by simp)

/-- setTimeout is tame. -/
theorem tame_setTimeout (config : Mcan_TimeoutConfig) :
    Tame (setTimeout config) := by
  unfold setTimeout
  exact tame_ite (tame_writeReg .tocc _ (by simp))
    (tame_writeReg .tocc _ (by simp))

/-- setStandardIdFiltering is tame. -/
theorem tame_setStandardIdFiltering (config : Mcan_Config) :
    Tame (setStandardIdFiltering config) := by
  unfold setStandardIdFiltering
  refine tame_ite ?_ ?_
  · exact tame_bind (tame_orReg .gfc _ (by simp)) fun _ =>
      tame_bind (tame_writeReg .sidfc _ (by simp)) fun _ =>
        tame_modifyMcan _ fun m => rfl
  · exact tame_bind (tame_orReg .gfc _ (by simp)) fun _ =>
      tame_bind (tame_writeReg .sidfc _ (by simp)) fun _ =>
        tame_modifyMcan _ fun m => rfl

/-- setExtendedIdFiltering is tame. -/
theorem tame_setExtendedIdFiltering (config : Mcan_Config) :
    Tame (setExtendedIdFiltering config) := by
  unfold setExtendedIdFiltering
  refine tame_ite ?_ ?_
  · exact tame_bind (tame_orReg .gfc _ (by simp)) fun _ =>
      tame_bind (tame_writeReg .xidfc _ (by simp)) fun _ =>
        tame_modifyMcan _ fun m => rfl
  · exact tame_bind (tame_orReg .gfc _ (by simp)) fun _ =>
      tame_bind (tame_writeReg .xidfc _ (by simp)) fun _ =>
        tame_modifyMcan _ fun m => rfl

/-- setRxFifo0 is tame. -/
theorem tame_setRxFifo0 (config : Mcan_Config) : Tame (setRxFifo0 config) := by
  unfold setRxFifo0
  refine tame_bind (tame_andNotReg .rxesc _ (by simp)) fun _ => tame_ite ?_ ?_
  · exact tame_bind (tame_writeReg .rxf0c _ (by simp)) fun _ =>
      tame_bind (tame_orReg .rxesc _ (by simp)) fun _ =>
        tame_modifyMcan _ fun m => rfl
  · exact tame_bind (tame_writeReg .rxf0c _ (by simp)) fun _ =>
      tame_modifyMcan _ fun m => rfl

/-- setRxFifo1 is tame. -/
theorem tame_setRxFifo1 (config : Mcan_Config) : Tame (setRxFifo1 config) := by
  unfold setRxFifo1
  refine tame_bind (tame_andNotReg .rxesc _ (by simp)) fun _ => tame_ite ?_ ?_
  · exact tame_bind (tame_writeReg .rxf1c _ (by simp)) fun _ =>
      tame_bind (tame_orReg .rxesc _ (by simp)) fun _ =>
        tame_modifyMcan _ fun m => rfl
  · exact tame_bind (tame_writeReg .rxf1c _ (by simp)) fun _ =>
      tame_modifyMcan _ fun m => rfl

/-- setRxBuffer is tame. -/
theorem tame_setRxBuffer (config : Mcan_Config) : Tame (setRxBuffer config) := by
  unfold setRxBuffer
  exact tame_bind (tame_writeReg .rxbc _ (by simp)) fun _ =>
    tame_bind (tame_setValueAtOffset .rxesc _ _ _ (by simp)) fun _ =>
      tame_modifyMcan _ fun m => rfl

/-- setTxEventFifo is tame. -/
theorem tame_setTxEventFifo (config : Mcan_Config) :
    Tame (setTxEventFifo config) := by
  unfold setTxEventFifo
  refine tame_ite ?_ ?_
  · exact tame_bind (tame_writeReg .txefc _ (by simp)) fun _ =>
      tame_modifyMcan _ fun m => rfl
  · exact tame_bind (tame_writeReg .txefc _ (by simp)) fun _ =>
      tame_modifyMcan _ fun m => rfl

/-- One interrupt-routing iteration is tame. -/
theorem tame_setInterruptsBody (config : Mcan_Config) (i : Nat) :
    Tame (setInterruptsBody config i) := by
  unfold setInterruptsBody
  refine tame_ite ?_ (tame_pure _)
  exact tame_bind (tame_writeReg .ir _ (by simp)) fun _ =>
    tame_bind (tame_changeBitAtOffset .ie _ _ (by simp)) fun _ =>
      tame_changeBitAtOffset .ils _ _ (by simp)

/-- The interrupt-routing loop is tame. -/
theorem tame_setInterruptsLoop (config : Mcan_Config) :
    ∀ n i, Tame (setInterruptsLoop config i n) := by
  intro n
  induction n with
  | zero => intro i; exact tame_pure ()
  | succ n ih =>
      intro i
      exact tame_bind (tame_setInterruptsBody config i) fun _ => ih (i + 1)

/-- setInterrupts is tame. -/
theorem tame_setInterrupts (config : Mcan_Config) :
    Tame (setInterrupts config) := by
  unfold setInterrupts
  exact tame_bind (tame_setInterruptsLoop config Mcan_Interrupt_Count 0) fun _ =>
    tame_bind (tame_writeReg .ile _ (by simp)) fun _ =>
      tame_bind (tame_writeReg .txbtie _ (by simp)) fun _ =>
        tame_writeReg .txbcie _ (by simp)

/-- Extracting the tx-preservation component of a tame step. -/
theorem tame_ok_tx {α : Type} {m : M α} (hm : Tame m) {s s1 : HwState}
    {a : α} (h : m s = .ok a s1) : s1.mcan.tx = s.mcan.tx := by
  have h1 := (hm s).1
  rw [h] at h1
  simpa [outcomeState] using h1

/-- When the Tx buffer is enabled and setTxBuffer succeeds, the element
    size was valid and the recorded layout places the queue directly after
    the dedicated buffer area. -/
theorem setTxBuffer_ok_true (config : Mcan_Config) (s sf : HwState)
    (hEn : config.txBuffer.isEnabled = true)
    (h : setTxBuffer config s = .ok true sf) :
    decodeTxElementSizeInBytes config.txBuffer.elementSize ≠
      MCAN_TXELEMENT_SIZE_INVALID ∧
    sf.mcan.tx =
      { bufferAddress := some config.txBuffer.startAddress,
        bufferSize := config.txBuffer.bufferSize,
        queueAddress := some (config.txBuffer.startAddress +
          4 * ((decodeTxElementSizeInBytes config.txBuffer.elementSize *
            config.txBuffer.bufferSize) / 4)),
        queueSize := config.txBuffer.queueSize,
        elementSize := decodeTxElementSizeInBytes config.txBuffer.elementSize } := by
  unfold setTxBuffer at h
  simp only [hEn, if_true] at h
  split at h
  · simp [M_pure_def] at h
  · next hinv =>
      refine ⟨hinv, ?_⟩
      obtain ⟨_, t1, hc, h⟩ := bind_ok_inv h
      have ht1 : t1 = s := by
        simp only [cassert] at hc
        split at hc
        · exact (Outcome.ok.injEq _ _ _ _ ▸ hc).2.symm ▸ rfl
        · exact absurd hc (by simp)
      simp only [writeReg, modifyMcan, M_bind_def, M_pure_def,
        Outcome.ok.injEq] at h
      obtain ⟨-, hsf⟩ := h
      rw [← hsf]

/-- With the Tx buffer enabled, a valid element size and an over-limit
    combined buffer/queue size, setTxBuffer trips its assertion before any
    register write. -/
theorem setTxBuffer_overLimit (config : Mcan_Config) (s : HwState)
    (hEn : config.txBuffer.isEnabled = true)
    (hValid : decodeTxElementSizeInBytes config.txBuffer.elementSize ≠
      MCAN_TXELEMENT_SIZE_INVALID)
    (hOver : config.txBuffer.bufferSize + config.txBuffer.queueSize > 32) :
    setTxBuffer config s = .assertFail s := by
  unfold setTxBuffer
  simp only [hEn, if_true]
  rw [if_neg hValid]
  have hle : ¬ (config.txBuffer.bufferSize + config.txBuffer.queueSize ≤ 32) := by
    omega
  simp [cassert, M_bind_def, hle]

/-- The decoded stride of a valid Tx element size is divisible by 4, so the
    word-truncating division in the queue base computation is exact. -/
theorem decodeTx_mul_div4 (x : Mcan_ElementSize) (b : Nat)
    (hx : decodeTxElementSizeInBytes x ≠ MCAN_TXELEMENT_SIZE_INVALID) :
    4 * ((decodeTxElementSizeInBytes x * b) / 4) =
      decodeTxElementSizeInBytes x * b := by
  cases x <;>
    simp [decodeTxElementSizeInBytes, decodeElementSizeInBytes,
      MCAN_TXELEMENT_DATA_WORD, Mcan_DataLengthRaw_Invalid,
      MCAN_TXELEMENT_SIZE_INVALID] at hx ⊢ <;>
    omega

/-- Inversion of a successful Mcan_setConfig run that reports success: the
    Tx buffer step ran and succeeded, and the steps after it preserve the
    recorded Tx layout. -/
theorem setConfig_ok_inv (config : Mcan_Config) (t : Nat) (s sf : HwState)
    (r : Bool × Option Mcan_ErrorCode)
    (h : Mcan_setConfig config t s = .ok r sf) (hr : r.1 = true) :
    ∃ s9 s10, setTxBuffer config s9 = .ok true s10 ∧
      sf.mcan.tx = s10.mcan.tx := by
  unfold Mcan_setConfig at h
  obtain ⟨_, s1, h1, h⟩ := bind_ok_inv h
  obtain ⟨_, s2, h2, h⟩ := bind_ok_inv h
  obtain ⟨ok, s3, h3, h⟩ := bind_ok_inv h
  cases ok with
  | false =>
      simp only [Bool.not_false, if_true, M_pure_def, returnError,
        Outcome.ok.injEq] at h
      obtain ⟨hre, -⟩ := h
      rw [← hre] at hr
      simp at hr
  | true =>
      rw [if_neg (by simp)] at h
      obtain ⟨_, s4, h4, h⟩ := bind_ok_inv h
      obtain ⟨_, s5, h5, h⟩ := bind_ok_inv h
      obtain ⟨_, s6, h6, h⟩ := bind_ok_inv h
      obtain ⟨rm, s7, h7, h⟩ := bind_ok_inv h
      cases hrm : rm.1 with
      | false =>
          rw [hrm] at h
          simp only [Bool.not_false, if_true, M_pure_def,
            Outcome.ok.injEq] at h
          obtain ⟨hre, -⟩ := h
          rw [← hre] at hr
          simp at hr
      | true =>
          rw [hrm] at h
          rw [if_neg (by simp)] at h
          obtain ⟨_, s8, h8, h⟩ := bind_ok_inv h
          obtain ⟨_, s9, h9, h⟩ := bind_ok_inv h
          obtain ⟨_, s10, h10, h⟩ := bind_ok_inv h
          obtain ⟨_, s11, h11, h⟩ := bind_ok_inv h
          obtain ⟨_, s12, h12, h⟩ := bind_ok_inv h
          obtain ⟨_, s13, h13, h⟩ := bind_ok_inv h
          obtain ⟨_, s14, h14, h⟩ := bind_ok_inv h
          obtain ⟨_, s15, h15, h⟩ := bind_ok_inv h
          obtain ⟨_, s16, h16, h⟩ := bind_ok_inv h
          obtain ⟨okTx, s17, hTx, h⟩ := bind_ok_inv h
          cases okTx with
          | false =>
              simp only [Bool.not_false, if_true, M_pure_def, returnError,
                Outcome.ok.injEq] at h
              obtain ⟨hre, -⟩ := h
              rw [← hre] at hr
              simp at hr
          | true =>
              rw [if_neg (by simp)] at h
              obtain ⟨_, u1, k1, h⟩ := bind_ok_inv h
              obtain ⟨_, u2, k2, h⟩ := bind_ok_inv h
              obtain ⟨_, u3, k3, h⟩ := bind_ok_inv h
              obtain ⟨_, u4, k4, h⟩ := bind_ok_inv h
              obtain ⟨_, u5, k5, h⟩ := bind_ok_inv h
              simp only [M_pure_def, Outcome.ok.injEq] at h
              obtain ⟨-, hsf⟩ := h
              refine ⟨s16, s17, hTx, ?_⟩
              rw [← hsf]
              have e1 := tame_ok_tx (tame_setTxEventFifo config) k1
              have e2 := tame_ok_tx (tame_setInterrupts config) k2
              have e3 := tame_ok_tx (tame_writeReg .rwd _ (by simp)) k3
              have e4 := tame_ok_tx (tame_writeReg .xidam _ (by simp)) k4
              have e5 := tame_ok_tx (tame_andNotReg .cccr _ (by simp)) k5
              rw [e5, e4, e3, e2, e1]

/-- C7: Mcan_txBufferAdd with an index at or past the configured dedicated
    Tx buffer size fails with IndexOutOfRange and leaves the state exactly
    as it was: no add-request bit, no message-RAM write, no register
    access of any kind (the trace does not grow). -/
theorem Mcan_txBufferAdd_outOfRange (element : Mcan_TxElement) (index : Nat)
    (s : HwState) (h : index ≥ s.mcan.tx.bufferSize) :
    Mcan_txBufferAdd element index s =
      .ok (false, some .IndexOutOfRange) s := by
  simp [Mcan_txBufferAdd, M_bind_def, M_pure_def, getMcan, h, returnError]

/-- Witness for C7: on a fresh device the buffer size is 0 and index 0 is
    one past the last valid slot. -/
theorem Mcan_txBufferAdd_outOfRange_witness :
    (0 ≥ (initStateWith (constOracle 0)).mcan.tx.bufferSize) ∧
    Mcan_txBufferAdd badSizeElement 0 (initStateWith (constOracle 0)) =
      .ok (false, some .IndexOutOfRange) (initStateWith (constOracle 0)) :=
  ⟨by decide,
    Mcan_txBufferAdd_outOfRange badSizeElement 0 (initStateWith (constOracle 0))
      (by decide)⟩

/-- C3: when the hardware-maintained queue-full flag is set,
    Mcan_txQueuePush fails with TxFifoFull and the only hardware access is
    the single status-register read: the descriptor, the message RAM, all
    registers and the out-parameter index are untouched. -/
theorem Mcan_txQueuePush_full (element : Mcan_TxElement) (s : HwState)
    (h : isBitSet (s.oracle s.readCnt .txfqs &&& 0xffffffff)
      MCAN_TXFQS_TFQF_OFFSET = true) :
    Mcan_txQueuePush element s =
      .ok (false, some .TxFifoFull, none)
        { s with
            readCnt := s.readCnt + 1,
            trace := s.trace ++
              [Ev.readReg .txfqs (s.oracle s.readCnt .txfqs &&& 0xffffffff)] } := by
  simp [Mcan_txQueuePush, M_bind_def, M_pure_def, readReg, h]

/-- Witness for C3 with an oracle whose TXFQS value has the queue-full bit
    set. -/
theorem Mcan_txQueuePush_full_witness :
    isBitSet ((initStateWith (constOracle (1 <<< 21))).oracle
        (initStateWith (constOracle (1 <<< 21))).readCnt .txfqs &&& 0xffffffff)
      MCAN_TXFQS_TFQF_OFFSET = true ∧
    Mcan_txQueuePush badSizeElement (initStateWith (constOracle (1 <<< 21))) =
      .ok (false, some .TxFifoFull, none)
        { initStateWith (constOracle (1 <<< 21)) with
            readCnt := (initStateWith (constOracle (1 <<< 21))).readCnt + 1,
            trace := (initStateWith (constOracle (1 <<< 21))).trace ++
              [Ev.readReg .txfqs
                ((initStateWith (constOracle (1 <<< 21))).oracle
                  (initStateWith (constOracle (1 <<< 21))).readCnt .txfqs &&&
                  0xffffffff)] } :=
  ⟨by decide,
    Mcan_txQueuePush_full badSizeElement (initStateWith (constOracle (1 <<< 21)))
      (by decide)⟩

/-- C10: when the queue is not full but the element data size has no DLC
    encoding, Mcan_txQueuePush fails with ElementSizeInvalid, the message
    RAM and every register other than the single status read are untouched
    (the trace grows by that read only), yet the out-parameter index has
    already been overwritten with the hardware-maintained put index. -/
theorem Mcan_txQueuePush_invalidSize (element : Mcan_TxElement) (s : HwState)
    (hNotFull : isBitSet (s.oracle s.readCnt .txfqs &&& 0xffffffff)
      MCAN_TXFQS_TFQF_OFFSET = false)
    (hBad : encodeDataLengthCode element.dataSize = MCAN_DLC_INVALID) :
    Mcan_txQueuePush element s =
      .ok (false, some .ElementSizeInvalid,
          some (getValueAtOffset (s.oracle s.readCnt .txfqs &&& 0xffffffff)
            MCAN_TXFQS_TFQPI_OFFSET MCAN_TXFQS_TFQPI_MASK &&& 0xff))
        { s with
            readCnt := s.readCnt + 1,
            trace := s.trace ++
              [Ev.readReg .txfqs (s.oracle s.readCnt .txfqs &&& 0xffffffff)] } := by
  simp [Mcan_txQueuePush, txAddElement, M_bind_def, M_pure_def, readReg,
    getMcan, hNotFull, hBad]

/-- Witness for C10: all-zero oracle (queue not full, put index 0) and the
    sample element of data size 9. -/
theorem Mcan_txQueuePush_invalidSize_witness :
    isBitSet ((initStateWith (constOracle 0)).oracle
        (initStateWith (constOracle 0)).readCnt .txfqs &&& 0xffffffff)
      MCAN_TXFQS_TFQF_OFFSET = false ∧
    encodeDataLengthCode badSizeElement.dataSize = MCAN_DLC_INVALID ∧
    Mcan_txQueuePush badSizeElement (initStateWith (constOracle 0)) =
      .ok (false, some .ElementSizeInvalid,
          some (getValueAtOffset ((initStateWith (constOracle 0)).oracle
              (initStateWith (constOracle 0)).readCnt .txfqs &&& 0xffffffff)
            MCAN_TXFQS_TFQPI_OFFSET MCAN_TXFQS_TFQPI_MASK &&& 0xff))
        { initStateWith (constOracle 0) with
            readCnt := (initStateWith (constOracle 0)).readCnt + 1,
            trace := (initStateWith (constOracle 0)).trace ++
              [Ev.readReg .txfqs ((initStateWith (constOracle 0)).oracle
                (initStateWith (constOracle 0)).readCnt .txfqs &&& 0xffffffff)] } :=
  ⟨by decide, by decide,
    Mcan_txQueuePush_invalidSize badSizeElement (initStateWith (constOracle 0))
      (by decide) (by decide)⟩

/-- C4: pulling from a configured Rx FIFO whose hardware fill level reads 0
    fails with RxFifoEmpty; the only hardware access is the single status
    read (in particular the acknowledge register is not written) and the
    element out-parameter is untouched. -/
theorem Mcan_rxFifoPull_empty (id : Mcan_RxFifoId) (s : HwState) (a : Nat)
    (hAddr : (rxFifoOf s.mcan id).address = some a)
    (hEmpty : getValueAtOffset (s.oracle s.readCnt (rxStatusRegOf id) &&& 0xffffffff)
        MCAN_RXF0S_F0FL_OFFSET MCAN_RXF0S_F0FL_MASK &&& 0xff = 0) :
    Mcan_rxFifoPull id s =
      .ok (false, some .RxFifoEmpty, none)
        { s with
            readCnt := s.readCnt + 1,
            trace := s.trace ++
              [Ev.readReg (rxStatusRegOf id)
                (s.oracle s.readCnt (rxStatusRegOf id) &&& 0xffffffff)] } := by
  cases id <;>
    simp [rxFifoOf, rxStatusRegOf] at hAddr hEmpty <;>
    simp [Mcan_rxFifoPull, rxStatusRegOf, M_bind_def, M_pure_def, readReg,
      getMcan, hAddr, hEmpty]

/-- Witness for C4: a descriptor with Rx FIFO 0 configured and an all-zero
    oracle (fill level 0). -/
theorem Mcan_rxFifoPull_empty_witness :
    (rxFifoOf (rxConfiguredState (constOracle 0)).mcan .fifo0).address = some 512 ∧
    (getValueAtOffset ((rxConfiguredState (constOracle 0)).oracle
          (rxConfiguredState (constOracle 0)).readCnt (rxStatusRegOf .fifo0) &&&
          0xffffffff)
        MCAN_RXF0S_F0FL_OFFSET MCAN_RXF0S_F0FL_MASK &&& 0xff = 0) ∧
    Mcan_rxFifoPull .fifo0 (rxConfiguredState (constOracle 0)) =
      .ok (false, some .RxFifoEmpty, none)
        { rxConfiguredState (constOracle 0) with
            readCnt := (rxConfiguredState (constOracle 0)).readCnt + 1,
            trace := (rxConfiguredState (constOracle 0)).trace ++
              [Ev.readReg (rxStatusRegOf .fifo0)
                ((rxConfiguredState (constOracle 0)).oracle
                  (rxConfiguredState (constOracle 0)).readCnt
                  (rxStatusRegOf .fifo0) &&& 0xffffffff)] } :=
  ⟨by decide, by decide,
    Mcan_rxFifoPull_empty .fifo0 (rxConfiguredState (constOracle 0)) 512
      (by decide) (by decide)⟩

/-- C9: Mcan_getInterruptStatus performs exactly one read of the interrupt
    flag register immediately followed by one write of the very value it
    read (so precisely the observed flags are cleared), touches nothing
    else, and every boolean field of the returned status equals the
    corresponding bit of the value read. -/
theorem Mcan_getInterruptStatus_readClear (s : HwState) :
    Mcan_getInterruptStatus s =
      .ok
        { hasRf0nOccurred := (irRead s).testBit 0
          hasRf0wOccurred := (irRead s).testBit 1
          hasRf0fOccurred := (irRead s).testBit 2
          hasRf0lOccurred := (irRead s).testBit 3
          hasRf1nOccurred := (irRead s).testBit 4
          hasRf1wOccurred := (irRead s).testBit 5
          hasRf1fOccurred := (irRead s).testBit 6
          hasRf1lOccurred := (irRead s).testBit 7
          hasHpmOccurred := (irRead s).testBit 8
          hasTcOccurred := (irRead s).testBit 9
          hasTcfOccurred := (irRead s).testBit 10
          hasTfeOccurred := (irRead s).testBit 11
          hasTefnOccurred := (irRead s).testBit 12
          hasTefwOccurred := (irRead s).testBit 13
          hasTeffOccurred := (irRead s).testBit 14
          hasTeflOccurred := (irRead s).testBit 15
          hasTswOccurred := (irRead s).testBit 16
          hasMrafOccurred := (irRead s).testBit 17
          hasTooOccurred := (irRead s).testBit 18
          hasDrxOccurred := (irRead s).testBit 19
          hasEloOccurred := (irRead s).testBit 22
          hasEpOccurred := (irRead s).testBit 23
          hasEwOccurred := (irRead s).testBit 24
          hasBoOccurred := (irRead s).testBit 25
          hasWdiOccurred := (irRead s).testBit 26
          hasPeaOccurred := (irRead s).testBit 27
          hasPedOccurred := (irRead s).testBit 28
          hasAraOccurred := (irRead s).testBit 29 }
        { s with
            readCnt := s.readCnt + 1,
            trace := s.trace ++
              [Ev.readReg .ir (irRead s), Ev.writeReg .ir (irRead s)] } := by
  simp only [Mcan_getInterruptStatus, M_bind_def, M_pure_def, readReg,
    writeReg, irRead]
  simp only [MCAN_IR_RF0N_MASK, MCAN_IR_RF0W_MASK, MCAN_IR_RF0F_MASK,
    MCAN_IR_RF0L_MASK, MCAN_IR_RF1N_MASK, MCAN_IR_RF1W_MASK,
    MCAN_IR_RF1F_MASK, MCAN_IR_RF1L_MASK, MCAN_IR_HPM_MASK,
    MCAN_IR_TC_MASK, MCAN_IR_TCF_MASK, MCAN_IR_TFE_MASK,
    MCAN_IR_TEFN_MASK, MCAN_IR_TEFW_MASK, MCAN_IR_TEFF_MASK,
    MCAN_IR_TEFL_MASK, MCAN_IR_TSW_MASK, MCAN_IR_MRAF_MASK,
    MCAN_IR_TOO_MASK, MCAN_IR_DRX_MASK, MCAN_IR_ELO_MASK,
    MCAN_IR_EP_MASK, MCAN_IR_EW_MASK, MCAN_IR_BO_MASK,
    MCAN_IR_WDI_MASK, MCAN_IR_PEA_MASK, MCAN_IR_PED_MASK,
    MCAN_IR_ARA_MASK, and_shift_ne_zero]
  simp [Nat.and_assoc]

/-- C1: when the hardware never sets the initialization acknowledge (INIT)
    bit of the control register, Mcan_setConfig with timeoutLimit 100 fails
    with InitializationStartTimeout after exactly 100 polls of that
    register, and none of the region-configuration registers (Rx FIFO 0/1,
    Rx buffer, Tx buffer/queue, Tx event FIFO, standard/extended filter
    lists, element-size registers) is written. -/
theorem Mcan_setConfig_initTimeout (config : Mcan_Config) (s : HwState)
    (h : ∀ k, s.oracle k RegName.cccr &&& MCAN_CCCR_INIT_MASK = 0) :
    ∃ sf,
      Mcan_setConfig config 100 s =
        .ok (false, some .InitializationStartTimeout) sf ∧
      readCount .cccr sf.trace = readCount .cccr s.trace + 100 ∧
      writeCount .sidfc sf.trace = writeCount .sidfc s.trace ∧
      writeCount .xidfc sf.trace = writeCount .xidfc s.trace ∧
      writeCount .rxf0c sf.trace = writeCount .rxf0c s.trace ∧
      writeCount .rxf1c sf.trace = writeCount .rxf1c s.trace ∧
      writeCount .rxesc sf.trace = writeCount .rxesc s.trace ∧
      writeCount .rxbc sf.trace = writeCount .rxbc s.trace ∧
      writeCount .txbc sf.trace = writeCount .txbc s.trace ∧
      writeCount .txesc sf.trace = writeCount .txesc s.trace ∧
      writeCount .txefc sf.trace = writeCount .txefc s.trace := by
  have h1 : ∀ k, (s.oracle k RegName.cccr &&& 0xffffffff) &&& MCAN_CCCR_INIT_MASK = 0 := by
    intro k
    rw [Nat.and_assoc]
    have h2 : (0xffffffff : Nat) &&& MCAN_CCCR_INIT_MASK = MCAN_CCCR_INIT_MASK := by
      decide
    rw [h2]
    exact h k
  refine
    ⟨{ s with
        mcan := { s.mcan with msgRamBaseAddress := config.msgRamBaseAddress },
        readCnt := s.readCnt + 1 + 100,
        trace := (s.trace ++
            [Ev.readReg .canDma (s.oracle s.readCnt RegName.canDma &&& 0xffffffff),
              Ev.writeReg .canDma
                ((((s.oracle s.readCnt RegName.canDma &&& 0xffffffff) &&&
                      (0xffffffff ^^^ MCAN_CHIPCFG_CANXDMABA_MASK)) |||
                    shiftValueLeft (config.msgRamBaseAddress >>> 16)
                      MCAN_CHIPCFG_CANXDMABA_OFFSET MCAN_CHIPCFG_CANXDMABA_MASK) &&&
                  0xffffffff),
              Ev.writeReg .cccr (MCAN_CCCR_INIT_MASK &&& 0xffffffff)]) ++
          pollReads s.oracle RegName.cccr (s.readCnt + 1) 100 },
      ?_, ?_, ?_, ?_, ?_, ?_, ?_, ?_, ?_, ?_, ?_⟩
  case _ =>
    simp only [Mcan_setConfig, setMsgRamBaseAddress, setValueAtOffset,
      modifyMcan, readReg, writeReg, M_bind_def, M_pure_def]
    rw [waitFor_never _ _ _ _ (by intro k; exact h1 k)]
    simp [returnError, M_pure_def, List.append_assoc]
  all_goals
    simp only [readCount_append, writeCount_append, readCount_pollReads,
      writeCount_pollReads]
    simp [readCount, writeCount, List.countP_cons, List.countP_nil]

/-- Witness for C1: the all-zero oracle never raises the acknowledge bit. -/
theorem Mcan_setConfig_initTimeout_witness :
    (∀ k, (initStateWith (constOracle 0)).oracle k RegName.cccr &&&
      MCAN_CCCR_INIT_MASK = 0) ∧
    ∃ sf,
      Mcan_setConfig sampleConfig 100 (initStateWith (constOracle 0)) =
        .ok (false, some .InitializationStartTimeout) sf ∧
      readCount .cccr sf.trace =
        readCount .cccr (initStateWith (constOracle 0)).trace + 100 ∧
      writeCount .sidfc sf.trace =
        writeCount .sidfc (initStateWith (constOracle 0)).trace ∧
      writeCount .xidfc sf.trace =
        writeCount .xidfc (initStateWith (constOracle 0)).trace ∧
      writeCount .rxf0c sf.trace =
        writeCount .rxf0c (initStateWith (constOracle 0)).trace ∧
      writeCount .rxf1c sf.trace =
        writeCount .rxf1c (initStateWith (constOracle 0)).trace ∧
      writeCount .rxesc sf.trace =
        writeCount .rxesc (initStateWith (constOracle 0)).trace ∧
      writeCount .rxbc sf.trace =
        writeCount .rxbc (initStateWith (constOracle 0)).trace ∧
      writeCount .txbc sf.trace =
        writeCount .txbc (initStateWith (constOracle 0)).trace ∧
      writeCount .txesc sf.trace =
        writeCount .txesc (initStateWith (constOracle 0)).trace ∧
      writeCount .txefc sf.trace =
        writeCount .txefc (initStateWith (constOracle 0)).trace :=
  ⟨by intro k; simp [initStateWith, constOracle],
    Mcan_setConfig_initTimeout sampleConfig (initStateWith (constOracle 0))
      (by intro k; simp [initStateWith, constOracle])⟩

/-- C8: after a successful Mcan_setConfig with the Tx buffer/queue enabled,
    the recorded Tx queue base address equals the Tx dedicated-buffer base
    plus bufferSize times the decoded element stride: the buffer and queue
    occupy one contiguous area with the queue immediately after the
    buffer. -/
theorem Mcan_setConfig_queueContiguous (config : Mcan_Config) (t : Nat)
    (s sf : HwState) (r : Bool × Option Mcan_ErrorCode)
    (hEn : config.txBuffer.isEnabled = true)
    (hRun : Mcan_setConfig config t s = .ok r sf) (hr : r.1 = true) :
    sf.mcan.tx.bufferAddress = some config.txBuffer.startAddress ∧
    sf.mcan.tx.queueAddress = some (config.txBuffer.startAddress +
      config.txBuffer.bufferSize *
        decodeTxElementSizeInBytes config.txBuffer.elementSize) := by
  obtain ⟨s9, s10, hTx, hpres⟩ := setConfig_ok_inv config t s sf r hRun hr
  obtain ⟨hValid, hlayout⟩ := setTxBuffer_ok_true config s9 s10 hEn hTx
  rw [hpres, hlayout]
  refine ⟨rfl, ?_⟩
  rw [decodeTx_mul_div4 _ _ hValid, Nat.mul_comm]

/-- Witness for C8: the sample configuration succeeds at once with an
    oracle that acknowledges immediately; the queue starts 2 elements of 16
    bytes after the buffer base 1024. -/
theorem Mcan_setConfig_queueContiguous_witness :
    sampleConfig.txBuffer.isEnabled = true ∧
    (outcomeState sampleRun).mcan.tx.bufferAddress =
      some sampleConfig.txBuffer.startAddress ∧
    (outcomeState sampleRun).mcan.tx.queueAddress =
      some (sampleConfig.txBuffer.startAddress +
        sampleConfig.txBuffer.bufferSize *
          decodeTxElementSizeInBytes sampleConfig.txBuffer.elementSize) := by
  have hok : sampleRunSucceeded = true := by decide
  refine ⟨rfl, ?_⟩
  cases h : sampleRun with
  | assertFail s1 =>
      unfold sampleRunSucceeded at hok
      rw [h] at hok
      exact Bool.noConfusion hok
  | ok r sf =>
      unfold sampleRunSucceeded at hok
      rw [h] at hok
      have hr : r.1 = true := hok
      have hmain := Mcan_setConfig_queueContiguous sampleConfig 1
        (initStateWith (constOracle 1)) sf r rfl h hr
      simpa [outcomeState] using hmain

/-- With the Tx buffer enabled, a valid element size and an over-limit
    combined size, the whole configuration sequence is tame: the Tx buffer
    configuration register is never written and the recorded layout never
    changes, whichever path the run takes. -/
theorem tame_setConfig_overLimit (config : Mcan_Config) (t : Nat)
    (hEn : config.txBuffer.isEnabled = true)
    (hValid : decodeTxElementSizeInBytes config.txBuffer.elementSize ≠
      MCAN_TXELEMENT_SIZE_INVALID)
    (hOver : config.txBuffer.bufferSize + config.txBuffer.queueSize > 32) :
    Tame (Mcan_setConfig config t) := by
  unfold Mcan_setConfig
  refine tame_bind (tame_setMsgRamBaseAddress config) fun _ => ?_
  refine tame_bind (tame_writeReg .cccr _ (by simp)) fun _ => ?_
  refine tame_bind (tame_waitFor .cccr _ t) fun ok => ?_
  refine tame_ite (tame_pure _) ?_
  refine tame_bind (tame_orReg .cccr _ (by simp)) fun _ => ?_
  refine tame_bind (tame_writeReg .cccr _ (by simp)) fun _ => ?_
  refine tame_bind (tame_writeReg .gfc _ (by simp)) fun _ => ?_
  refine tame_bind (tame_setMode config t) fun rm => ?_
  refine tame_ite (tame_pure _) ?_
  refine tame_bind (tame_setNominalTiming config) fun _ => ?_
  refine tame_bind (tame_setFdTimingIfEnabled config) fun _ => ?_
  refine tame_bind (tame_setTimestamp config) fun _ => ?_
  refine tame_bind (tame_setTimeout _) fun _ => ?_
  refine tame_bind (tame_setStandardIdFiltering config) fun _ => ?_
  refine tame_bind (tame_setExtendedIdFiltering config) fun _ => ?_
  refine tame_bind (tame_setRxFifo0 config) fun _ => ?_
  refine tame_bind (tame_setRxFifo1 config) fun _ => ?_
  refine tame_bind (tame_setRxBuffer config) fun _ => ?_
  refine tame_bind ?_ fun okTx => ?_
  · intro s
    rw [setTxBuffer_overLimit config s hEn hValid hOver]
    simp [outcomeState]
  refine tame_ite (tame_pure _) ?_
  refine tame_bind (tame_setTxEventFifo config) fun _ => ?_
  refine tame_bind (tame_setInterrupts config) fun _ => ?_
  refine tame_bind (tame_writeReg .rwd _ (by simp)) fun _ => ?_
  refine tame_bind (tame_writeReg .xidam _ (by simp)) fun _ => ?_
  exact tame_bind (tame_andNotReg .cccr _ (by simp)) fun _ => tame_pure _

/-- C2 (amended): a configuration whose combined Tx buffer/queue size
    exceeds 32 (with the Tx area enabled and a valid element size) is never
    programmed: Mcan_setConfig never returns success and never writes the
    Tx buffer configuration register; the limit violation is caught only by
    the assert inside setTxBuffer, not by an error-code rejection, and
    registers written earlier in the sequence are not undone (see the
    counterexample for a run that writes region registers first). -/
theorem Mcan_setConfig_overLimit (config : Mcan_Config) (t : Nat)
    (s : HwState) (hEn : config.txBuffer.isEnabled = true)
    (hValid : decodeTxElementSizeInBytes config.txBuffer.elementSize ≠
      MCAN_TXELEMENT_SIZE_INVALID)
    (hOver : config.txBuffer.bufferSize + config.txBuffer.queueSize > 32) :
    (∀ r sf, Mcan_setConfig config t s = .ok r sf →
      r.1 = false ∧ writeCount .txbc sf.trace = writeCount .txbc s.trace) ∧
    (∀ sf, Mcan_setConfig config t s = .assertFail sf →
      writeCount .txbc sf.trace = writeCount .txbc s.trace) := by
  have htame := tame_setConfig_overLimit config t hEn hValid hOver s
  constructor
  · intro r sf h
    constructor
    · cases hb : r.1 with
      | false => rfl
      | true =>
          obtain ⟨s9, s10, hTx, -⟩ := setConfig_ok_inv config t s sf r h hb
          rw [setTxBuffer_overLimit config s9 hEn hValid hOver] at hTx
          exact absurd hTx (by simp)
    · have h2 := htame.2
      rw [h] at h2
      simpa [outcomeState] using h2
  · intro sf h
    have h2 := htame.2
    rw [h] at h2
    simpa [outcomeState] using h2

/-- Witness for the amended C2 at the concrete over-limit configuration. -/
theorem Mcan_setConfig_overLimit_witness :
    overLimitConfig.txBuffer.isEnabled = true ∧
    decodeTxElementSizeInBytes overLimitConfig.txBuffer.elementSize ≠
      MCAN_TXELEMENT_SIZE_INVALID ∧
    overLimitConfig.txBuffer.bufferSize + overLimitConfig.txBuffer.queueSize > 32 ∧
    ((∀ r sf,
        Mcan_setConfig overLimitConfig 1 (initStateWith (constOracle 1)) =
          .ok r sf →
        r.1 = false ∧
        writeCount .txbc sf.trace =
          writeCount .txbc (initStateWith (constOracle 1)).trace) ∧
      (∀ sf,
        Mcan_setConfig overLimitConfig 1 (initStateWith (constOracle 1)) =
          .assertFail sf →
        writeCount .txbc sf.trace =
          writeCount .txbc (initStateWith (constOracle 1)).trace)) :=
  ⟨rfl, by decide, by decide,
    Mcan_setConfig_overLimit overLimitConfig 1 (initStateWith (constOracle 1))
      rfl (by decide) (by decide)⟩

/-- Counterexample to C2 as stated: on the concrete over-limit
    configuration the call does not reject with an error return before any
    register write; the run ends in the setTxBuffer assertion failure and
    by that time the Rx FIFO 0 configuration register has already been
    written (overLimitCheck inspects exactly this). -/
theorem Mcan_setConfig_overLimit_counterexample :
    overLimitConfig.txBuffer.bufferSize + overLimitConfig.txBuffer.queueSize > 32 ∧
    overLimitCheck = true :=
  ⟨by decide, by decide⟩

end ArmBsp
